import Mathlib

/-!
Verification development for the world-history engine.

Shallow embedding of the core data model and of the operations the claims
are about, translated from the Python sources:
  src/models/generation.py, src/models/templates_schema.py, src/utils.py,
  src/services/world_query_service.py, src/services/spatial_manager.py,
  src/systems/conflict_system.py, src/systems/transformation_system.py,
  src/spatial_layout_gen.py, src/services/simulation.py.

Machine integers do not occur (Python ints are unbounded); numeric fields are
Int/Nat.  Float arithmetic appears only in presentation-level spatial
coordinates (trigonometric slot positions, jitter); those float values are
not consumed by any of the verified behaviour and are left out, which is
noted at each place.  Randomness (`random.random`, `random.choice`,
`random.randint`, `random.shuffle`) is modelled by an explicit stream of
rationals / naturals threaded through the code; `uuid4`-based id generation
is modelled by a fresh-name counter.
-/

namespace WHE

/-! ## Data model (src/models/generation.py) -/

/-- `EntityType` enum from src/models/generation.py (its exact members; the
enum has no BOSS member). -/
inductive EntityType where
  | BIOME | LOCATION | RESOURCE | METHOD | PROBLEM | FACTION | DISPUTE_REASON
  | RITUAL | OBJECT_OF_WORSHIP | BELIEF | GLOBAL_CONFLICT | CREATURE
  | CHARACTER | CONFLICT | EVENT | ITEM
deriving DecidableEq

/-- `RelationType` model from src/models/generation.py. -/
structure RelationType where
  id : String
  from_type : EntityType
  to_type : EntityType
  description : String
  is_symmetric : Bool := false
deriving DecidableEq

/-- The known keys of the open `Entity.data` dict (`Dict[str, Any]`), as read
and written by the embedded code paths.  A key that a given entity's dict
does not carry is `none` / the listed default.  `culture_vector` is read by
the conflict code only through its `aggression` axis, which is the
`aggression` field here.  `limits` is the `{"Faction": n, ...}` sub-dict. -/
structure EData where
  status : Option String := none
  outcome : Option String := none
  participants : Option (List String) := none
  location_id : Option String := none
  reason_id : Option String := none
  is_raid : Bool := false
  age_started : Option Int := none
  absorbed_by : Option String := none
  limits : Option (List (String × Int)) := none
  destroyed_in_age : Option Int := none
  last_conflict_age : Option Int := none
  aggression : Option Int := none
  role : Option String := none
  spatial_slot_index : Option Nat := none
  neighbor_biomes : List String := []
  event_type : Option String := none
  summary : Option String := none
  age : Option Int := none
  origin_event : Option String := none
  conflict_id : Option String := none
deriving DecidableEq

/-- `Entity` model from src/models/generation.py.  `tags` is a Python set of
strings; only membership, insertion and removal are used, so it is carried
as a list (order is irrelevant to every claim). -/
structure Entity where
  id : String
  definition_id : String
  type : EntityType
  name : String
  tags : List String := []
  capacity : Option Int := none
  parent_id : Option String := none
  data : Option EData := none
  created_at : Int := 0
deriving DecidableEq

/-- `RelationInstance` model from src/models/generation.py: it embeds the
two endpoint entities and the relation type. -/
structure RelationInstance where
  from_entity : Entity
  to_entity : Entity
  relation_type : RelationType
deriving DecidableEq

/-! ### Pydantic construction semantics for RelationInstance (claim C1)

Pydantic v2 validates the fields of a model in declaration order
(`from_entity`, then `to_entity`, then `relation_type`), and a
`field_validator` sees in `info.data` only the fields that were already
validated before the one being checked.  `FieldData` below is that
accumulating `info.data` record. -/

/-- The `info.data` dict as pydantic fills it during `RelationInstance`
validation. -/
structure FieldData where
  from_entity : Option Entity := none
  to_entity : Option Entity := none
  relation_type : Option RelationType := none

/-- `RelationInstance.validate_entity_types` (generation.py lines 61-70):
`relation_type = info.data.get('relation_type'); if not relation_type:
return v`, else compare `v.type` against the expected endpoint type and
raise `ValueError` on mismatch. -/
def validate_entity_types (v : Entity) (field_is_from : Bool)
    (data_relation_type : Option RelationType) : Except String Entity :=
  match data_relation_type with
  | none => Except.ok v
  | some relation_type =>
    let expected := if field_is_from then relation_type.from_type
                    else relation_type.to_type
    if v.type ≠ expected then
      Except.error ("Entity " ++ v.id ++ " has unexpected type for " ++ relation_type.id)
    else Except.ok v

/-- Constructing `RelationInstance(from_entity=…, to_entity=…,
relation_type=…)`: pydantic validates `from_entity` and `to_entity` first,
at which point `relation_type` has not been validated yet and is therefore
absent from `info.data` (its slot in `FieldData` is still `none`);
`relation_type` itself has no validator. -/
def RelationInstance.construct (fe te : Entity) (rt : RelationType) :
    Except String RelationInstance := do
  let d0 : FieldData := {}
  let f ← validate_entity_types fe true d0.relation_type
  let d1 : FieldData := { d0 with from_entity := some f }
  let t ← validate_entity_types te false d1.relation_type
  let _d2 : FieldData := { d1 with to_entity := some t }
  Except.ok ⟨f, t, rt⟩

/-- The check the validator body would perform if it could see
`relation_type` — this is the specified behaviour (spec §3: a mismatch
"fails construction"), kept for comparison with the behaviour above. -/
def RelationInstance.constructChecked (fe te : Entity) (rt : RelationType) :
    Except String RelationInstance := do
  let f ← validate_entity_types fe true (some rt)
  let t ← validate_entity_types te false (some rt)
  Except.ok ⟨f, t, rt⟩

/-- Helper: whether an `Except` value is a success. -/
def isOkE {ε α : Type} : Except ε α → Bool
  | Except.ok _ => true
  | Except.error _ => false

instance {ε α : Type} [DecidableEq ε] [DecidableEq α] :
    DecidableEq (Except ε α) := fun a b =>
  match a, b with
  | Except.ok x, Except.ok y =>
    if h : x = y then isTrue (by rw [h]) else isFalse (fun he => h (Except.ok.inj he))
  | Except.error x, Except.error y =>
    if h : x = y then isTrue (by rw [h]) else isFalse (fun he => h (Except.error.inj he))
  | Except.ok _, Except.error _ => isFalse (fun he => Except.noConfusion he)
  | Except.error _, Except.ok _ => isFalse (fun he => Except.noConfusion he)

/-- Python's binary `max` on rationals (`max(a, b)` is `b` when `a < b`). -/
def pymax (a b : Rat) : Rat := if a < b then b else a

/-! ## Culture vectors (src/models/templates_schema.py) -/

/-- `CultureVector`: three numeric axes (pydantic `int` fields, each with
bounds `ge=-20, le=20`) and two string sets. -/
structure CultureVector where
  aggression : Int
  magic_affinity : Int
  collectivism : Int
  taboo : Finset String
  revered : Finset String
deriving DecidableEq

/-- The pydantic bounds `ge=-20, le=20` on each numeric axis. -/
def CultureVector.inBounds (v : CultureVector) : Prop :=
  (-20 ≤ v.aggression ∧ v.aggression ≤ 20) ∧
  (-20 ≤ v.magic_affinity ∧ v.magic_affinity ≤ 20) ∧
  (-20 ≤ v.collectivism ∧ v.collectivism ≤ 20)

instance (v : CultureVector) : Decidable v.inBounds := by
  unfold CultureVector.inBounds; infer_instance

/-- Constructing `CultureVector(**data)`: pydantic validates each axis
against its `ge`/`le` bounds and raises a `ValidationError` when one is
violated. -/
def mkCultureVector (a m c : Int) (t r : Finset String) :
    Except String CultureVector :=
  if a < -20 ∨ 20 < a then Except.error "aggression out of bounds"
  else if m < -20 ∨ 20 < m then Except.error "magic_affinity out of bounds"
  else if c < -20 ∨ 20 < c then Except.error "collectivism out of bounds"
  else Except.ok ⟨a, m, c, t, r⟩

/-- `CultureVector.__add__`: sums each numeric axis (no clamping — the code
comment even notes clamping "could be added"), unions the two sets, and
builds `CultureVector(**new_data)`, which re-runs the bounds validation. -/
def CultureVector.add (v o : CultureVector) : Except String CultureVector :=
  mkCultureVector (v.aggression + o.aggression)
    (v.magic_affinity + o.magic_affinity)
    (v.collectivism + o.collectivism)
    (v.taboo ∪ o.taboo) (v.revered ∪ o.revered)

/-- `weights.get(k, 0.1)` from `distance_to` (default weight is 0.1). -/
def wGet (weights : List (String × Rat)) (k : String) : Rat :=
  (weights.lookup k).getD (1/10)

/-- One axis contribution of `distance_to`: `diff = abs(v1 - v2);
if diff > 2.0: tension += (diff - 2.0) * w`. -/
def axisTerm (v1 v2 : Int) (w : Rat) : Rat :=
  let diff : Rat := ((v1 - v2).natAbs : Rat)
  if 2 < diff then (diff - 2) * w else 0

/-- `CultureVector.distance_to(other, weights)`: weighted axis terms, plus
1.5 per element of `self.taboo ∩ other.revered` and of
`other.taboo ∩ self.revered`, minus 0.5 per element of
`self.revered ∩ other.revered`, floored at 0 by `max(0.0, tension)`. -/
def CultureVector.distance_to (v o : CultureVector)
    (weights : List (String × Rat)) : Rat :=
  let axes :=
    axisTerm v.aggression o.aggression (wGet weights "aggression") +
    axisTerm v.magic_affinity o.magic_affinity (wGet weights "magic_affinity") +
    axisTerm v.collectivism o.collectivism (wGet weights "collectivism")
  let cross := (((v.taboo ∩ o.revered).card + (o.taboo ∩ v.revered).card : Nat) : Rat) * (3/2)
  let shared := (((v.revered ∩ o.revered).card : Nat) : Rat) * (1/2)
  pymax 0 (axes + cross - shared)

/-! ## Exact rationals for the runtime embedding

Python's floats in the layout generator and the per-epoch systems only ever
hold probabilities/noise and are combined by `+ - * /` and compared; they
are modelled by exact unreduced fractions (numerator/denominator pairs,
denominators kept positive), so every operation is a plain integer
computation.  (Mathlib's `Rat` normalises through `Nat.gcd` in a way the
kernel cannot evaluate, which would block `decide`; the culture-vector
section above keeps `Rat` because its proofs are algebraic, not
computational.) -/

structure Q where
  num : Int
  den : Nat := 1
deriving DecidableEq

/-- `a < b` by cross multiplication (denominators are positive in every
value the embedding builds). -/
def Q.blt (a b : Q) : Bool := a.num * (b.den : Int) < b.num * (a.den : Int)

def Q.add (a b : Q) : Q := ⟨a.num * (b.den : Int) + b.num * (a.den : Int), a.den * b.den⟩

def Q.sub (a b : Q) : Q := ⟨a.num * (b.den : Int) - b.num * (a.den : Int), a.den * b.den⟩

def Q.mul (a b : Q) : Q := ⟨a.num * b.num, a.den * b.den⟩

/-- Division by a value with positive numerator (the only case the
embedding uses: grid sizes and capacities). -/
def Q.divP (a b : Q) : Q := ⟨a.num * (b.den : Int), a.den * b.num.toNat⟩

def Q.ofNat (n : Nat) : Q := ⟨(n : Int), 1⟩

def Q.ofInt (i : Int) : Q := ⟨i, 1⟩

/-- Python `int(q)` for `q ≥ 0` (truncation toward zero). -/
def Q.truncNat (a : Q) : Nat := (a.num.toNat) / a.den

/-! ## JSON persistence of worlds (src/utils.py, claim C2)

Python objects live on a heap; `WorldGraph.entities` maps ids to object
references and each `RelationInstance` holds references to its endpoint
`Entity` objects (in a live world these are the very table records).
`save_world_to_json` runs `world.model_dump(mode="json")`, which writes the
entity table and, for each relation, the full *inline* content of its two
endpoints; `load_world_from_json` runs `World.model_validate(data)`, which
allocates a fresh object for every entity occurrence in the JSON — one per
table entry and one per relation endpoint — and then
`register_all_relation_types` re-registers the relation types (it touches
nothing else).  The heap is modelled explicitly: addresses are naturals,
and "the same in-memory record" means "the same address". -/

/-- A world of Python objects: heap of `Entity` records, the entity table
mapping id → reference, and relations holding references to their endpoint
records (the relation type content is inline, it is irrelevant here). -/
structure PyWorld where
  heap : List (Nat × Entity)
  table : List (String × Nat)
  relations : List (Nat × Nat × RelationType)
deriving DecidableEq

/-- The JSON file content produced by `model_dump`: entity values keyed by
id, and relations with their endpoint values embedded inline. -/
structure WorldDump where
  entities : List (String × Entity)
  relations : List (Entity × Entity × RelationType)
deriving DecidableEq

def heapGet (h : List (Nat × Entity)) (a : Nat) : Option Entity :=
  match h with
  | [] => none
  | (k, e) :: rest => if k = a then some e else heapGet rest a

/-- `world.model_dump(mode="json")` as called by `save_world_to_json`:
dereference every entity reference and write its value inline. -/
def dumpWorld (w : PyWorld) : WorldDump :=
  { entities := w.table.filterMap fun p =>
      (heapGet w.heap p.2).map fun e => (p.1, e)
    relations := w.relations.filterMap fun r =>
      match heapGet w.heap r.1, heapGet w.heap r.2.1 with
      | some fe, some te => some (fe, te, r.2.2)
      | _, _ => none }

/-- Allocate one fresh record per entity-table entry of the JSON, starting
at address `i`. -/
def allocTable (i : Nat) : List (String × Entity) →
    List (Nat × Entity) × List (String × Nat)
  | [] => ([], [])
  | (id, e) :: rest =>
    let r := allocTable (i + 1) rest
    ((i, e) :: r.1, (id, i) :: r.2)

/-- Allocate two fresh records (from- and to-endpoint) per relation of the
JSON, starting at address `i`. -/
def allocRels (i : Nat) : List (Entity × Entity × RelationType) →
    List (Nat × Entity) × List (Nat × Nat × RelationType)
  | [] => ([], [])
  | (fe, te, rt) :: rest =>
    let r := allocRels (i + 2) rest
    ((i, fe) :: (i + 1, te) :: r.1, (i, i + 1, rt) :: r.2)

/-- `World.model_validate(data)`: pydantic parses the JSON tree into fresh
objects — each table entry becomes a new `Entity` record, and each
relation's two inline endpoint values become two further new records.
Nothing re-links a relation endpoint to the table record with the same id. -/
def loadWorld (d : WorldDump) : PyWorld :=
  let n := d.entities.length
  let t := allocTable 0 d.entities
  let r := allocRels n d.relations
  { heap := t.1 ++ r.1, table := t.2, relations := r.2 }

/-- `load_world_from_json`: `model_validate` then
`register_all_relation_types(world.graph)`, which only rewrites the
relation-type registry (not modelled in `PyWorld`) and leaves the entity
table and the relation instances untouched. -/
def load_world_from_json (d : WorldDump) : PyWorld := loadWorld d

/-- Serialize-then-deserialize round trip
(`save_world_to_json` / `load_world_from_json`). -/
def roundTrip (w : PyWorld) : PyWorld := load_world_from_json (dumpWorld w)

/-! ## The epoch-driving loop (src/services/simulation.py, claim C3)

`SimulationService.run_simulation` wraps the *whole* `for age in
range(1, target_epochs + 1)` loop in one `try`; the body calls
`narrative.evolve(num_ages=1)` (which has no error handling of its own —
see narrative_engine.py) and appends each returned event to the history
file.  The `except` branch appends a single synthetic `CRITICAL_ERROR`
record.  `evolve` is abstracted as a function from the epoch number to
either the epoch's event payloads or an escaped error. -/

inductive HistLine where
  /-- one serialized event written to history.jsonl -/
  | event : String → HistLine
  /-- the synthetic record `{"event_type": "CRITICAL_ERROR", ...}` -/
  | critical : String → HistLine
deriving DecidableEq

/-- The loop from `run_simulation`, by remaining epoch count: on success the
epoch's events are written and the next epoch runs; an escaped error writes
one `CRITICAL_ERROR` line and control leaves the loop (the `except` is
outside the `for`).  Also returns the list of epoch numbers on which
`evolve` was actually invoked. -/
def runEpochsFrom (evolveStep : Nat → Except String (List String)) :
    Nat → Nat → List HistLine × List Nat
  | _, 0 => ([], [])
  | age, n + 1 =>
    match evolveStep age with
    | Except.error msg => ([HistLine.critical msg], [age])
    | Except.ok evs =>
      let r := runEpochsFrom evolveStep (age + 1) n
      (evs.map HistLine.event ++ r.1, age :: r.2)

/-- `run_simulation(target_epochs)`: drive epochs 1..target. -/
def run_simulation (evolveStep : Nat → Except String (List String))
    (target : Nat) : List HistLine × List Nat :=
  runEpochsFrom evolveStep 1 target

/-- Number of `CRITICAL_ERROR` records in a history. -/
def countCritical (l : List HistLine) : Nat :=
  (l.filter fun line =>
    match line with
    | HistLine.critical _ => true
    | HistLine.event _ => false).length

/-! ## Template registries (src/models/templates_schema.py, loaded from YAML)

The registries are populated at startup by the external template loader
(out of scope per spec §2); systems receive them read-only, so they are
inputs of the embedded systems. -/

/-- `LocationTemplate` (the fields the embedded systems read). -/
structure LocationTemplate where
  id : String
  name : String
  capacity : Int
  limits : List (String × Int) := []
  tags : List String := []
deriving DecidableEq

/-- `BiomeTemplate` (the fields the embedded systems and the layout
generator read). -/
structure BiomeTemplate where
  id : String
  name : String
  capacity : Int
  tags : List String := []
  allowed_locations : List String := []
  forbidden_neighbors : List String := []
  available_resources : List String := []
deriving DecidableEq

/-- `TransformationRule`. -/
structure TransformationRule where
  id : String
  requires_tag : String
  needs_faction : Bool := false
  min_age_empty : Option Int := none
  target_def : String
  chance : Q
  verb : String := ""
  narrative : String := ""
deriving DecidableEq

/-- The registries plus the naming oracle (spec §6: `generate_name` is an
external collaborator consumed as an opaque total function of the entity
type and a context map). -/
structure Ctx where
  locReg : List (String × LocationTemplate) := []
  biomeReg : List (String × BiomeTemplate) := []
  transReg : List TransformationRule := []
  naming : EntityType → List (String × String) → String

/-! ## Graph runtime (WorldGraph + WorldQueryService)

The mutable Python object graph is embedded as explicit state.  A
`RelationInstance` in the running system holds *references* to its endpoint
`Entity` objects, and every endpoint ever passed to `add_relation` is (an
alias of) a record of the entity table, so a relation is carried as the
pair of entity ids plus the relation-type id, resolved through the table —
this is exactly the aliasing the Python code relies on.  `uuid4`-based
`make_id` is modelled by a fresh counter; `random.*` draws come from an
explicit stream. -/

/-- A relation held by the graph: endpoint entity ids (resolving them
through the entity table models the shared object references) and the
relation-type id. -/
structure GRel where
  from_id : String
  to_id : String
  type_id : String
deriving DecidableEq

/-- `WorldGraph`: insertion-ordered entity table (`Dict[str, Entity]`),
relation-type registry, relation list, plus the fresh-name counter that
stands in for `uuid4`. -/
structure GraphState where
  entities : List (String × Entity) := []
  relation_types : List (String × RelationType) := []
  relations : List GRel := []
  fresh : Nat := 0
deriving DecidableEq

/-- Association-list lookup (Python `dict.get`). -/
def alookup {β : Type} : List (String × β) → String → Option β
  | [], _ => none
  | (k, v) :: rest, key => if k = key then some v else alookup rest key

/-- Python dict assignment `d[k] = v`: an existing key keeps its position,
a new key is appended. -/
def upsert : List (String × Entity) → String → Entity → List (String × Entity)
  | [], k, v => [(k, v)]
  | (k', v') :: rest, k, v =>
    if k' = k then (k, v) :: rest else (k', v') :: upsert rest k v

/-- In-place mutation of the object stored under a key (Python mutates the
shared record; the table reflects it). -/
def mapAdjust : List (String × Entity) → String → (Entity → Entity) →
    List (String × Entity)
  | [], _, _ => []
  | (k', v') :: rest, k, f =>
    if k' = k then (k', f v') :: rest else (k', v') :: mapAdjust rest k f

def GraphState.lookupE (g : GraphState) (i : String) : Option Entity :=
  alookup g.entities i

/-- `dict.values()` in insertion order. -/
def GraphState.entityValues (g : GraphState) : List Entity :=
  g.entities.map Prod.snd

/-- `WorldGraph.add_entity`: insert/overwrite by id. -/
def GraphState.add_entity (g : GraphState) (e : Entity) : GraphState :=
  { g with entities := upsert g.entities e.id e }

/-- `WorldQueryService.get_entity`: `if not entity_id: return None`, then
table lookup. -/
def get_entity (g : GraphState) (entity_id : String) : Option Entity :=
  if entity_id = "" then none else g.lookupE entity_id

/-- `WorldQueryService.get_children(parent_id, type_filter)`: direct
children, excluding entities tagged `inactive`. -/
def get_children (g : GraphState) (parent_id : String)
    (type_filter : Option EntityType) : List Entity :=
  if parent_id = "" then []
  else g.entityValues.filter fun e =>
    decide (e.parent_id = some parent_id) &&
    (match type_filter with
     | none => true
     | some t => decide (e.type = t)) &&
    decide ("inactive" ∉ e.tags)

/-- `WorldQueryService.get_location_of`. -/
def get_location_of (g : GraphState) (e : Entity) : Option Entity :=
  match e.parent_id with
  | none => none
  | some pid =>
    if pid = "" then none
    else match g.lookupE pid with
      | some p => if p.type = EntityType.LOCATION then some p else none
      | none => none

/-- Body of the `while current_id and depth < 5` loop of
`WorldQueryService.get_biome` (fuel = remaining iterations). -/
def getBiomeLoop (g : GraphState) : Option String → Nat → Option Entity
  | _, 0 => none
  | none, _ => none
  | some cid, fuel + 1 =>
    if cid = "" then none
    else match g.lookupE cid with
      | none => none
      | some p =>
        if p.type = EntityType.BIOME then some p
        else getBiomeLoop g p.parent_id fuel

/-- `WorldQueryService.get_biome`: walk `parent_id` up to depth 5 looking
for a Biome. -/
def get_biome (g : GraphState) (location : Entity) : Option Entity :=
  getBiomeLoop g location.parent_id 5

/-- `WorldGraph.add_relation`: `rel_type = self.relation_types[id]` (a
`KeyError` when absent), construct the `RelationInstance` through pydantic
validation, append it. -/
def graph_add_relation (g : GraphState) (fe te : Entity) (rtid : String) :
    Except String GraphState :=
  match alookup g.relation_types rtid with
  | none => Except.error ("KeyError: " ++ rtid)
  | some rt =>
    match RelationInstance.construct fe te rt with
    | Except.error e => Except.error e
    | Except.ok _ =>
      Except.ok { g with relations := g.relations ++ [⟨fe.id, te.id, rtid⟩] }

/-- Per-epoch random draws: a stream of floats (exact rationals) and a
stream of naturals driving `random.choice` / `random.randint` /
`random.choices`.  An exhausted float stream yields `1`, a draw on which
every `random.random() > chance` gate fires (nothing happens); an
exhausted nat stream yields `0`. -/
structure Rng where
  floats : List Q := []
  nats : List Nat := []
deriving DecidableEq

/-- The running state: the shared world graph and the random stream. -/
structure SimState where
  g : GraphState
  rng : Rng
deriving DecidableEq

/-- The systems' effect monad: shared mutable graph + random stream, with
Python exceptions as `Except` (an uncaught exception escapes the epoch). -/
abbrev M := StateT SimState (Except String)

def nextFloat : M Q :=
  modifyGet fun s =>
    match s.rng.floats with
    | [] => (⟨1, 1⟩, s)
    | q :: rest => (q, { s with rng := { s.rng with floats := rest } })

def nextNat : M Nat :=
  modifyGet fun s =>
    match s.rng.nats with
    | [] => (0, s)
    | n :: rest => (n, { s with rng := { s.rng with nats := rest } })

/-- `random.choice(seq)`: raises `IndexError` on an empty sequence. -/
def choiceM {α : Type} (l : List α) : M α := do
  let n ← nextNat
  match l.get? (n % l.length) with
  | some a => pure a
  | none => throw "IndexError: choice on empty sequence"

/-- `random.randint(a, b)` (both ends inclusive). -/
def randint (a b : Int) : M Int := do
  let n ← nextNat
  pure (a + ((n : Int) % (b - a + 1)))

/-- Walk a cumulative-weight table. -/
def pickWeighted {α : Type} : List (α × Nat) → Nat → Option α
  | [], _ => none
  | (a, w) :: rest, t => if t < w then some a else pickWeighted rest (t - w)

/-- `random.choices(outcomes, weights=probs, k=1)[0]`: a weight-proportional
draw; raises on a non-positive total weight. -/
def choicesWeighted {α : Type} (pairs : List (α × Nat)) : M α := do
  let total := (pairs.map Prod.snd).sum
  if total = 0 then throw "ValueError: total of weights must be greater than zero"
  else do
    let n ← nextNat
    match pickWeighted pairs (n % total) with
    | some a => pure a
    | none => throw "IndexError: weighted choice"

/-- `make_id(prefix)` (src/utils.py): a fresh `{prefix}_{uuid4-slice}` id,
modelled by the fresh counter. -/
def make_id (p : String) : M String :=
  modifyGet fun s =>
    (p ++ "_" ++ toString s.g.fresh,
     { s with g := { s.g with fresh := s.g.fresh + 1 } })

/-- Mutate the shared record with the given id (no-op when absent — the
embedded call sites only adjust ids present in the table). -/
def updateEntity (i : String) (f : Entity → Entity) : M Unit :=
  modify fun s => { s with g := { s.g with entities := mapAdjust s.g.entities i f } }

def addEntityM (e : Entity) : M Unit :=
  modify fun s => { s with g := s.g.add_entity e }

def getGraph : M GraphState := do
  let s ← get
  pure s.g

/-- Python `set.add`. -/
def tagsAdd (l : List String) (t : String) : List String :=
  if t ∈ l then l else l ++ [t]

/-- Python `set1 | set2` (tag lists are duplicate-free by construction). -/
def listUnion (a b : List String) : List String :=
  a ++ b.filter fun x => decide (x ∉ a)

/-- `{"Faction": n, ...}.get(key, default)` on the optional `limits`
sub-dict of `Entity.data`. -/
def limitsGet (l : Option (List (String × Int))) (k : String) (dflt : Int) : Int :=
  ((l.getD []).lookup k).getD dflt

/-- `WorldQueryService.add_relation`: no-op on a missing endpoint; a
loudly-logged no-op when the relation-type id is not registered (the
relation is NOT created); otherwise delegates to `WorldGraph.add_relation`
(re-raising whatever that raises). -/
def qs_add_relation (fe te : Option Entity) (rel_type_id : String) : M Unit := do
  match fe, te with
  | some f, some t => do
    let s ← get
    if (alookup s.g.relation_types rel_type_id).isNone then
      pure ()
    else
      match graph_add_relation s.g f t rel_type_id with
      | Except.error e => throw e
      | Except.ok g2 => set { s with g := g2 }
  | _, _ => pure ()

/-- `SpatialManager.get_layout_slots` produces `capacity` slot positions
(both the ring and the grid variant emit exactly `capacity` coordinate
pairs for `capacity ≥ 1`, none for `capacity ≤ 0`).  The positions
themselves are floats (trigonometry plus uniform jitter) consumed only by
the renderer; only their number and indices feed back into the graph. -/
def layoutSlotCount (capacity : Int) : Nat :=
  if capacity ≤ 0 then 0 else capacity.toNat

/-- `SpatialManager.assign_slot`: pick the first slot index not claimed by
a sibling's `spatial_slot_index`, falling back to a random index when all
are taken; returns the chosen index (the float `local_coord` the source
also returns is presentation data, see `layoutSlotCount`). -/
def assign_slot (entity parent : Entity) (siblings : List Entity) : M Nat := do
  -- capacity = parent.capacity or parent.data.get("limits", {}).get("Faction", 4)
  let cap ←
    match parent.capacity with
    | some c =>
      if c ≠ 0 then pure c
      else match parent.data with
        | none => throw "AttributeError: data is None"
        | some d => pure (limitsGet d.limits "Faction" 4)
    | none =>
      match parent.data with
      | none => throw "AttributeError: data is None"
      | some d => pure (limitsGet d.limits "Faction" 4)
  let cap := if parent.type = EntityType.BIOME then 5 else cap
  let n := layoutSlotCount cap
  let occupied := siblings.filterMap fun sib =>
    if sib.id = entity.id then none else sib.data.bind EData.spatial_slot_index
  match (List.range n).find? (fun i => decide (i ∉ occupied)) with
  | some i => pure i
  | none =>
    if n > 0 then do
      let k ← nextNat
      pure (k % n)
    else pure 0

/-- `WorldQueryService.move_entity`: drop the entity's existing relations of
the given type, reparent, re-link, and cache a fresh spatial slot.  The
absolute float coordinates `_update_absolute_coordinates` also caches are
presentation data (see `layoutSlotCount`) and are not modelled. -/
def move_entity (entity new_parent : Entity) (relation_type : String) : M Unit := do
  modify fun s =>
    { s with g := { s.g with relations := s.g.relations.filter fun r =>
        !(decide (r.from_id = entity.id) && decide (r.type_id = relation_type)) } }
  updateEntity entity.id fun e => { e with parent_id := some new_parent.id }
  let g ← getGraph
  let ecur := (g.lookupE entity.id).getD entity
  qs_add_relation (some ecur) (some new_parent) relation_type
  let g2 ← getGraph
  let siblings := get_children g2 new_parent.id (some entity.type)
  let slot ← assign_slot ecur new_parent siblings
  updateEntity entity.id fun e =>
    { e with data := some { (e.data.getD {}) with spatial_slot_index := some slot } }

/-- Linking loop of `register_event` over the secondary entities. -/
def eventLinkLoop (event : Entity) : List Entity → M Unit
  | [] => pure ()
  | ent :: rest => do
    let rel_name := if ent.type = EntityType.FACTION then "affected_by" else "occurred_at"
    qs_add_relation (some ent) (some event) rel_name
    eventLinkLoop event rest

/-- `WorldQueryService.register_event`: stamp age/type/summary into the
data, infer the event's location from the primary entity (itself if a
location, else its containing location) or the first secondary location,
create the Event entity, and link the participants. -/
def register_event (event_type summary : String) (age : Int)
    (primary : Entity) (secondary : List Entity := [])
    (d : Option EData := none) : M Entity := do
  let data0 := d.getD {}
  let data1 := { data0 with age := some age, event_type := some event_type,
                            summary := some summary }
  let g ← getGraph
  let lid0 := data1.location_id
  let lid1 :=
    if lid0.isNone then
      if primary.type = EntityType.LOCATION then some primary.id
      else match get_location_of g primary with
        | some loc => some loc.id
        | none => none
    else lid0
  let lid2 :=
    if lid1.isNone then
      (secondary.find? fun ent => decide (ent.type = EntityType.LOCATION)).map Entity.id
    else lid1
  let data2 := { data1 with location_id := lid2 }
  let eid ← make_id "evt"
  let event : Entity :=
    { id := eid, definition_id := "sys_event", type := EntityType.EVENT,
      name := "Эпоха " ++ toString age ++ ": " ++ summary,
      created_at := age, data := some data2 }
  addEntityM event
  let rel_name := if primary.type = EntityType.FACTION then "affected_by" else "occurred_at"
  qs_add_relation (some primary) (some event) rel_name
  eventLinkLoop event secondary
  pure event

/-- `_register_narrative_relation_types` (narrative_engine.py): the
relation types the engine registers if missing. -/
def narrativeRelationDefs : List (String × EntityType × EntityType × String) :=
  [("joined", EntityType.CHARACTER, EntityType.FACTION, "Присоединился к"),
   ("leads", EntityType.CHARACTER, EntityType.FACTION, "Предводитель"),
   ("involved_in", EntityType.FACTION, EntityType.CONFLICT, "Участвует в конфликте"),
   ("resolved_as", EntityType.CONFLICT, EntityType.EVENT, "Разрешён как событие"),
   ("affected_by", EntityType.FACTION, EntityType.EVENT, "Затронута событием"),
   ("occurred_at", EntityType.EVENT, EntityType.LOCATION, "Произошло в локации"),
   ("allied_with", EntityType.FACTION, EntityType.FACTION, "В союзе с"),
   ("fled_to", EntityType.FACTION, EntityType.LOCATION, "Сбежала в"),
   ("absorbed_by", EntityType.FACTION, EntityType.FACTION, "Поглощена фракцией"),
   ("expanded_to", EntityType.FACTION, EntityType.LOCATION, "Расширилась в"),
   ("splintered_from", EntityType.FACTION, EntityType.FACTION, "Откололась от"),
   ("located_in", EntityType.RESOURCE, EntityType.LOCATION, "Находится в"),
   ("believes_in", EntityType.FACTION, EntityType.BELIEF, "Исповедует"),
   ("opposes_belief", EntityType.BELIEF, EntityType.BELIEF, "Враждует с верой"),
   ("part_of_global", EntityType.CONFLICT, EntityType.GLOBAL_CONFLICT, "Часть глобальной войны"),
   ("active_participant", EntityType.FACTION, EntityType.GLOBAL_CONFLICT, "Участник войны")]

/-- Fold of `_register_narrative_relation_types`: add each definition only
when its id is not yet registered. -/
def registerNarrativeRelationTypes (g : GraphState) : GraphState :=
  narrativeRelationDefs.foldl
    (fun acc d =>
      if (alookup acc.relation_types d.1).isSome then acc
      else { acc with relation_types :=
        acc.relation_types ++ [(d.1, ⟨d.1, d.2.1, d.2.2.1, d.2.2.2, false⟩)] })
    g

/-! ## ConflictSystem resolution (src/systems/conflict_system.py)

`resolve_conflicts` snapshots the conflicts whose `data["status"]` is
`"active"`, resolves each, and — unless the resolution aborted — marks it
resolved, stores the outcome and registers a `conflict_resolved` event.
Entities in the Python snapshot list are live references; the embedding
snapshots their ids and re-reads the current record at each use. -/

/-- `_apply_absorption` inner loop over the losers. -/
def absorptionLoop (winner : Entity) : List Entity → M Unit
  | [] => pure ()
  | loser :: rest => do
    -- loser.data["absorbed_by"] = winner.id; loser.tags.add("absorbed")
    -- (every faction entity the generator or a system builds carries a data
    -- dict, so the `data.getD {}` default is never exercised)
    updateEntity loser.id fun e =>
      { e with data := some { (e.data.getD {}) with absorbed_by := some winner.id },
               tags := tagsAdd e.tags "absorbed" }
    let g ← getGraph
    let children := get_children g loser.id none
    reparentLoop winner.id children
    qs_add_relation (some loser) (some winner) "absorbed_by"
    absorptionLoop winner rest
where
  reparentLoop (wid : String) : List Entity → M Unit
    | [] => pure ()
    | c :: rest => do
      updateEntity c.id fun e => { e with parent_id := some wid }
      reparentLoop wid rest

/-- `_apply_absorption`: a random winner absorbs the other participants
(tag, reparent children, `absorbed_by` edge). -/
def apply_absorption (factions : List Entity) (_age : Int) : M Unit := do
  let winner ← choiceM factions
  let losers := factions.filter fun f => decide (f ≠ winner)
  absorptionLoop winner losers

/-- `_apply_flight`: the loser relocates to another same-biome location,
preferring one with spare faction capacity; with no other location it is
absorbed or dies 50/50. -/
def apply_flight (factions : List Entity) (location : Entity)
    (biome? : Option Entity) : M Unit := do
  let loser ← choiceM factions
  match factions.filter (fun f => decide (f ≠ loser)) with
  | [] => throw "IndexError: no winner"
  | winner :: _ =>
    match biome? with
    | none => apply_absorption [winner, loser] 0
    | some biome => do
      let g ← getGraph
      let other_locations :=
        (get_children g biome.id (some EntityType.LOCATION)).filter fun e =>
          decide (e.id ≠ location.id)
      if other_locations.isEmpty then do
        let r ← nextFloat
        if Q.blt r ⟨1, 2⟩ then apply_absorption [winner, loser] 0
        else
          updateEntity loser.id fun e =>
            { e with tags := tagsAdd (tagsAdd e.tags "inactive") "dead" }
      else do
        let g2 ← getGraph
        let candidates := other_locations.filter fun loc =>
          let cap := limitsGet ((loc.data.getD {}).limits) "Faction" 2
          let curr := ((get_children g2 loc.id (some EntityType.FACTION)).filter
            fun f => decide ("absorbed" ∉ f.tags)).length
          decide ((curr : Int) < cap)
        let target ←
          if candidates.isEmpty then choiceM other_locations
          else choiceM candidates
        move_entity loser target "faction_located_in"
        let g3 ← getGraph
        qs_add_relation (g3.lookupE loser.id) (some target) "fled_to"

/-- `_apply_new_settlement`: the loser founds a small refuge location in the
same biome unless the biome is at capacity (then it turns to wandering
bandits). -/
def apply_new_settlement (ctx : Ctx) (factions : List Entity)
    (biome? : Option Entity) (age : Int) : M Unit := do
  match biome? with
  | none => pure ()
  | some biome => do
    let biome_tmpl := alookup ctx.biomeReg biome.definition_id
    let g ← getGraph
    let current_locs := get_children g biome.id (some EntityType.LOCATION)
    -- if biome_tmpl and len(current_locs) >= (biome_tmpl.capacity or 10):
    let overfull :=
      match biome_tmpl with
      | some tmpl =>
        decide ((if tmpl.capacity ≠ 0 then tmpl.capacity else 10) ≤ (current_locs.length : Int))
      | none => false
    if overfull then
      if factions.isEmpty then pure ()
      else do
        let loser ← choiceM factions
        updateEntity loser.id fun e =>
          { e with tags := tagsAdd e.tags "wandering_bandits" }
    else do
      let starter_templates := ["loc_hamlet", "loc_hunter_camp", "loc_village"]
      let loc_def_id ← choiceM starter_templates
      match alookup ctx.locReg loc_def_id with
      | none => pure ()   -- warning printed, then return
      | some template => do
        let loc_name := ctx.naming EntityType.LOCATION [("biome_id", biome.definition_id)]
        let combined_tags := listUnion template.tags ["new_settlement", "refugee_camp"]
        let nid ← make_id "loc"
        let new_location : Entity :=
          { id := nid, definition_id := loc_def_id, type := EntityType.LOCATION,
            name := loc_name, capacity := some template.capacity,
            tags := combined_tags, created_at := age, parent_id := some biome.id,
            data := some { limits := some template.limits,
                           origin_event := some "conflict_flee" } }
        addEntityM new_location
        let g2 ← getGraph
        let siblings := get_children g2 biome.id (some EntityType.LOCATION)
        let slot ← assign_slot new_location biome siblings
        updateEntity nid fun e =>
          { e with data := some { (e.data.getD {}) with spatial_slot_index := some slot } }
        if factions.isEmpty then pure ()
        else do
          let loser ← choiceM factions
          let g3 ← getGraph
          move_entity loser ((g3.lookupE nid).getD new_location) "fled_to"

/-- `_apply_destruction` loop over the location's residents. -/
def destructionLoop : List Entity → M Unit
  | [] => pure ()
  | c :: rest => do
    (if c.type = EntityType.FACTION ∨ c.type = EntityType.CHARACTER then
      updateEntity c.id fun e =>
        { e with tags := tagsAdd (tagsAdd e.tags "inactive") "dead" }
    else if c.type = EntityType.RESOURCE then
      updateEntity c.id fun e => { e with tags := tagsAdd e.tags "buried" }
    else pure ())
    destructionLoop rest

/-- `_apply_destruction`: the location becomes ruins; residents die,
resources are buried. -/
def apply_destruction (location : Entity) (age : Int) : M Unit := do
  updateEntity location.id fun e =>
    { e with data := some { (e.data.getD {}) with destroyed_in_age := some age },
             definition_id := "loc_ruins",
             tags := ["ruins", "dangerous", "hidden"],
             name := "Руины «" ++ e.name ++ "»" }
  let g ← getGraph
  destructionLoop (get_children g location.id none)

/-- Pairwise `allied_with` loop of `_apply_truce`. -/
def trucePairLoop : List Entity → M Unit
  | [] => pure ()
  | f1 :: rest => do
    truceInner f1 rest
    trucePairLoop rest
where
  truceInner (f1 : Entity) : List Entity → M Unit
    | [] => pure ()
    | f2 :: rest => do
      qs_add_relation (some f1) (some f2) "allied_with"
      truceInner f1 rest

/-- Tagging loop of `_apply_truce`. -/
def truceTagLoop : List Entity → M Unit
  | [] => pure ()
  | f :: rest => do
    updateEntity f.id fun e => { e with tags := tagsAdd e.tags "allied" }
    truceTagLoop rest

/-- `_apply_truce`. -/
def apply_truce (factions : List Entity) : M Unit := do
  if factions.length < 2 then pure ()
  else do
    truceTagLoop factions
    trucePairLoop factions

/-- The outcome → log-text table of `_generate_summary`. -/
def outcomeText : List (String × String) :=
  [("truce", "Заключено перемирие"),
   ("absorption", "Одна сторона поглотила другую"),
   ("flight", "Проигравшие бежали"),
   ("new_settlement", "Проигравшие основали новое поселение"),
   ("destruction", "Локация уничтожена"),
   ("raid_success_loot", "Успешный грабеж ресурсов"),
   ("raid_success_plunder", "Разграбление поселения"),
   ("raid_repelled", "Набег отбит")]

/-- `_generate_summary`. -/
def generate_summary (g : GraphState) (conflict : Entity) (outcome : String) :
    String :=
  let loc_name :=
    match (conflict.data.getD {}).location_id.bind (get_entity g) with
    | some loc => loc.name
    | none => "???"
  let names := ((conflict.data.getD {}).participants.getD []).filterMap
    fun pid => (get_entity g pid).map Entity.name
  let names_str := String.intercalate " vs " names
  let text := (alookup outcomeText outcome).getD outcome
  "Конфликт (" ++ names_str ++ ") в " ++ loc_name ++ ": " ++ text

/-- `_resolve_single_conflict`: abort when the location is gone or fewer
than two participants are still valid, co-located and active; raids resolve
by an aggression contest; other conflicts by a weighted outcome draw whose
action is then applied. -/
def resolve_single_conflict (ctx : Ctx) (conflict : Entity) (age : Int) :
    M String := do
  let d ← match conflict.data with
    | some d => pure d
    | none => throw "TypeError: conflict.data is None"
  let participant_ids ← match d.participants with
    | some p => pure p
    | none => throw "KeyError: participants"
  let location_id ← match d.location_id with
    | some l => pure l
    | none => throw "KeyError: location_id"
  let g ← getGraph
  match get_entity g location_id with
  | none => pure "aborted"
  | some location => do
    let factions := participant_ids.filterMap fun fid =>
      match get_entity g fid with
      | some e =>
        if e.type = EntityType.FACTION ∧ e.parent_id = some location_id ∧
            "absorbed" ∉ e.tags ∧ "fled" ∉ e.tags ∧ "inactive" ∉ e.tags
        then some e else none
      | none => none
    if factions.length < 2 then pure "aborted"
    else do
      let biome? := get_biome g location
      if d.is_raid then
        match factions with
        | attacker :: defender :: _ => do
          let ra ← randint 1 10
          let rb ← randint 1 10
          let att_val := (((attacker.data.getD {}).aggression).getD 0) + ra
          let def_val := (((defender.data.getD {}).aggression).getD 0) + rb
          if def_val < att_val then do
            let g2 ← getGraph
            let resources := get_children g2 location.id (some EntityType.RESOURCE)
            if resources.isEmpty then pure "raid_success_plunder"
            else do
              let stolen ← choiceM resources
              let g3 ← getGraph
              match get_location_of g3 attacker with
              | some raider_home => do
                move_entity stolen raider_home "located_in"
                updateEntity stolen.id fun e =>
                  { e with tags := tagsAdd e.tags "stolen" }
                pure "raid_success_loot"
              | none => pure "raid_success_plunder"
          else pure "raid_repelled"
        | _ => throw "IndexError: raid participants"
      else do
        let weights : List (String × Nat) :=
          if d.reason_id = some "religious_crusade" then
            [("truce", 0), ("absorption", 45), ("flight", 20),
             ("new_settlement", 15), ("destruction", 20)]
          else
            [("truce", 20), ("absorption", 40), ("flight", 20),
             ("new_settlement", 15), ("destruction", 5)]
        let chosen ← choicesWeighted weights
        (if chosen = "absorption" then apply_absorption factions age
         else if chosen = "flight" then apply_flight factions location biome?
         else if chosen = "new_settlement" then apply_new_settlement ctx factions biome? age
         else if chosen = "destruction" then apply_destruction location age
         else if chosen = "truce" then apply_truce factions
         else pure ())
        updateEntity location.id fun e =>
          { e with data := some { (e.data.getD {}) with last_conflict_age := some age } }
        pure chosen

/-- The body of one `for conflict in active_conflicts` iteration of
`resolve_conflicts`: resolve, and unless aborted mark the conflict
resolved, store the outcome, register the `conflict_resolved` event and the
`resolved_as` edge.  Returns the outcome (`none` only in the unreachable
case of a vanished snapshot id) together with the event when one was
registered. -/
def resolveStep (ctx : Ctx) (age : Int) (cid : String) :
    M (Option (String × Option Entity)) := do
  let g ← getGraph
  match g.lookupE cid with
  | none => pure none   -- unreachable: the snapshot ids come from the table and entities are never removed
  | some conflict => do
    let outcome ← resolve_single_conflict ctx conflict age
    if outcome = "aborted" then pure (some (outcome, none))
    else do
      updateEntity cid fun e =>
        let d2 := { (e.data.getD {}) with status := some "resolved", outcome := some outcome }
        { e with data := some d2 }
      let g2 ← getGraph
      let cur := (g2.lookupE cid).getD conflict
      let summary := generate_summary g2 cur outcome
      let participants := ((conflict.data.getD {}).participants.getD []).filterMap
        fun pid => get_entity g2 pid
      let event ← register_event "conflict_resolved" summary age cur participants
        (some { conflict_id := some cid, outcome := some outcome })
      let g3 ← getGraph
      qs_add_relation (g3.lookupE cid) (some event) "resolved_as"
      pure (some (outcome, some event))

/-- The `for conflict in active_conflicts` loop of `resolve_conflicts`,
instrumented with the list of `(conflict id, outcome)` pairs in invocation
order (the processed trace), alongside the returned events (an aborted
conflict contributes a trace record but no event — the source `continue`s). -/
def resolveLoop (ctx : Ctx) (age : Int) :
    List String → M (List (String × String) × List Entity)
  | [] => pure ([], [])
  | cid :: rest => do
    let head ← resolveStep ctx age cid
    let r ← resolveLoop ctx age rest
    match head with
    | none => pure r
    | some (outcome, none) => pure ((cid, outcome) :: r.1, r.2)
    | some (outcome, some event) => pure ((cid, outcome) :: r.1, event :: r.2)

/-- The predicate of the `active_conflicts` snapshot: a Conflict entity
whose data dict is present (truthy) and carries `status == "active"`.
(A present-but-empty dict is falsy in Python; conflict entities are always
created with a populated dict, so presence models truthiness.) -/
def isActiveConflict (e : Entity) : Bool :=
  decide (e.type = EntityType.CONFLICT) && e.data.isSome &&
  decide ((e.data.getD {}).status = some "active")

/-- `ConflictSystem.resolve_conflicts`: filter the active conflicts, then
run the resolution loop.  Returns the processed trace and the events. -/
def resolve_conflicts (ctx : Ctx) (age : Int) :
    M (List (String × String) × List Entity) := do
  let g ← getGraph
  let activeIds := (g.entityValues.filter isActiveConflict).map Entity.id
  resolveLoop ctx age activeIds

/-! ## TransformationSystem (src/systems/transformation_system.py) -/

/-- The `for rule in rules` inner loop of `process_transformations` for one
location.  The `loc_wild_ruins` special case retags in place and then
`continue`s to the next rule; a full transformation ends the rule loop
(`break # Только одна трансформация за ход для локации`). -/
def transformRuleLoop (ctx : Ctx) (age : Int) (lid : String) :
    List TransformationRule → M (List Entity)
  | [] => pure []
  | rule :: rrest => do
    let g ← getGraph
    match g.lookupE lid with
    | none => pure []   -- unreachable: the location snapshot comes from the table
    | some loc =>
      -- 1. tag check
      if rule.requires_tag ∉ loc.tags then transformRuleLoop ctx age lid rrest
      else do
        -- 2. population check
        let occupants := get_children g lid (some EntityType.FACTION)
        let has_faction := !occupants.isEmpty
        if rule.needs_faction ≠ has_faction then transformRuleLoop ctx age lid rrest
        else do
          -- 3. `if rule.min_age_empty:` (falsy for None and 0), then
          --    `if age - destroyed_at < rule.min_age_empty: continue`
          let timeOk :=
            match rule.min_age_empty with
            | none => true
            | some n =>
              if n = 0 then true
              else
                let destroyed_at := (loc.data.bind EData.destroyed_in_age).getD 0
                decide (n ≤ age - destroyed_at)
          if !timeOk then transformRuleLoop ctx age lid rrest
          else do
            -- 4. `if random.random() > rule.chance: continue`
            let r ← nextFloat
            if Q.blt rule.chance r then transformRuleLoop ctx age lid rrest
            else
              if rule.target_def = "loc_wild_ruins" then do
                -- retag toward wild, rename, event, and CONTINUE the rule loop
                updateEntity lid fun e =>
                  { e with tags := tagsAdd (e.tags.erase rule.requires_tag) "wild",
                           name := "Заросшие " ++ e.name }
                let g2 ← getGraph
                let cur := (g2.lookupE lid).getD loc
                let ev ← register_event "nature_reclaim"
                  ("«" ++ cur.name ++ "» окончательно поглощена природой") age cur
                let r2 ← transformRuleLoop ctx age lid rrest
                pure (ev :: r2)
              else
                match alookup ctx.locReg rule.target_def with
                | none => transformRuleLoop ctx age lid rrest
                | some target_tmpl => do
                  updateEntity lid fun e =>
                    { e with definition_id := rule.target_def,
                             tags := listUnion target_tmpl.tags ["transformed"],
                             capacity := some target_tmpl.capacity }
                  let builder? := occupants.head?
                  let old_name := loc.name
                  let base_name := ctx.naming EntityType.LOCATION [("biome_id", "default")]
                  let clean_old := (old_name.replace "Руины " "").replace "Неизведанная " ""
                  let new_name := base_name ++ " (бывш. " ++ clean_old ++ ")"
                  updateEntity lid fun e => { e with name := new_name }
                  let g3 ← getGraph
                  let cur := (g3.lookupE lid).getD loc
                  let ev ← register_event "transformation"
                    (rule.narrative ++ " «" ++ old_name ++ "» -> «" ++ cur.name ++ "»")
                    age cur (builder?.toList)
                  pure [ev]   -- break

/-- Outer loop of `process_transformations` over the location snapshot. -/
def transformLocLoop (ctx : Ctx) (age : Int) : List String → M (List Entity)
  | [] => pure []
  | lid :: rest => do
    let evs ← transformRuleLoop ctx age lid ctx.transReg
    let r ← transformLocLoop ctx age rest
    pure (evs ++ r)

/-- `TransformationSystem.process_transformations`. -/
def process_transformations (ctx : Ctx) (age : Int) : M (List Entity) := do
  let g ← getGraph
  let locIds := (g.entityValues.filter fun l =>
    decide (l.type = EntityType.LOCATION)).map Entity.id
  transformLocLoop ctx age locIds

/-- The capacity filter `process_expansions` computes into `valid_targets`:
`limit` from the location template (else from `data["limits"]`, else 2),
kept when the current faction count is strictly below it. -/
def expansionHasRoom (ctx : Ctx) (g : GraphState) (t : Entity) : Bool :=
  let limit : Int :=
    match alookup ctx.locReg t.definition_id with
    | some tmpl => (tmpl.limits.lookup "Faction").getD 2
    | none =>
      match t.data with
      | some d =>
        match d.limits with
        | some l => (l.lookup "Faction").getD 2
        | none => 2
      | none => 2
  let curr := (get_children g t.id (some EntityType.FACTION)).length
  decide ((curr : Int) < limit)

/-- The `for faction in factions` loop of `process_expansions`.  Note: the
source computes `valid_targets` (the capacity-checked candidates) and then
draws the expansion target from `possible_targets` — the unchecked list. -/
def expansionsLoop (ctx : Ctx) (age : Int) (expansion_chance : Q) :
    List String → M (List Entity)
  | [] => pure []
  | fid :: rest => do
    let r ← nextFloat
    -- if random.random() > expansion_chance: continue
    if Q.blt expansion_chance r then expansionsLoop ctx age expansion_chance rest
    else do
      let g ← getGraph
      match g.lookupE fid with
      | none => expansionsLoop ctx age expansion_chance rest   -- unreachable
      | some faction =>
        match get_location_of g faction with
        | none => expansionsLoop ctx age expansion_chance rest
        | some loc =>
          match get_biome g loc with
          | none => expansionsLoop ctx age expansion_chance rest
          | some biome => do
            let neighbors := get_children g biome.id (some EntityType.LOCATION)
            let possible_targets := neighbors.filter fun l => decide (l.id ≠ loc.id)
            let _valid_targets := possible_targets.filter (expansionHasRoom ctx g)
            -- ^ computed by the source ("ИСПРАВЛЕНИЕ: Проверяем, есть ли куда
            --   расширяться") and never read again
            if possible_targets.isEmpty then
              expansionsLoop ctx age expansion_chance rest
            else do
              let target ← choiceM possible_targets
              let role := ((faction.data.getD {}).role).getD "default"
              let new_name := ctx.naming EntityType.FACTION
                [("biome_id", biome.definition_id), ("role", role)]
              let nid ← make_id "faction"
              let new_faction : Entity :=
                { id := nid, definition_id := faction.definition_id,
                  type := EntityType.FACTION, name := new_name ++ " (Филиал)",
                  tags := faction.tags, parent_id := some target.id,
                  created_at := age, data := some (faction.data.getD {}) }
              addEntityM new_faction
              qs_add_relation (some faction) (some target) "expanded_to"
              qs_add_relation (some new_faction) (some faction) "splintered_from"
              let ev ← register_event "expansion"
                (faction.name ++ " открыла филиал в " ++ target.name)
                age faction [target, new_faction]
              let r2 ← expansionsLoop ctx age expansion_chance rest
              pure (ev :: r2)

/-- `TransformationSystem.process_expansions` (default
`expansion_chance=0.1`). -/
def process_expansions (ctx : Ctx) (age : Int)
    (expansion_chance : Q := ⟨1, 10⟩) : M (List Entity) := do
  let g ← getGraph
  let factionIds := (g.entityValues.filter fun f =>
    decide (f.type = EntityType.FACTION) && decide ("absorbed" ∉ f.tags)).map Entity.id
  expansionsLoop ctx age expansion_chance factionIds

/-! ## Spatial layout generator (src/spatial_layout_gen.py)

`SpatialLayout.cells` is an insertion-ordered `Dict[(x, y), Optional[str]]`
whose keys the organic mask can delete; it is carried as an ordered
association list.  Randomness: the mask consumes one uniform noise value
per visited cell, and each `random.shuffle` applies a permutation drawn
from the stream (`shuffleWith` realises an arbitrary permutation from a
list of selection indices, so every Python shuffle outcome is reachable;
`list(set(...))`'s hash order also disappears into the following
shuffle). -/

def assocFind {α β : Type} [DecidableEq α] : List (α × β) → α → Option β
  | [], _ => none
  | (k, v) :: rest, key => if k = key then some v else assocFind rest key

def assocSet {α β : Type} [DecidableEq α] : List (α × β) → α → β → List (α × β)
  | [], k, v => [(k, v)]
  | (k', v') :: rest, k, v =>
    if k' = k then (k, v) :: rest else (k', v') :: assocSet rest k v

def assocDel {α β : Type} [DecidableEq α] : List (α × β) → α → List (α × β)
  | [], _ => []
  | (k', v') :: rest, k => if k' = k then rest else (k', v') :: assocDel rest k

/-- Selection shuffle: each seed entry picks the index (modulo the
remaining length) of the next element; leftovers keep their order.  With
enough seed entries any permutation is produced. -/
def shuffleWith {α : Type} : List Nat → List α → List α
  | [], l => l
  | _, [] => []
  | s :: srest, l =>
    let i := s % l.length
    match l.get? i with
    | some a => a :: shuffleWith srest (l.eraseIdx i)
    | none => l

/-- `list(set(...))` modelled as first-occurrence dedup (the hash-dependent
order is immaterial: the result is immediately shuffled). -/
def dedupFirst (l : List String) : List String := go l []
where
  go : List String → List String → List String
    | [], _ => []
    | x :: rest, seen =>
      if x ∈ seen then go rest seen else x :: go rest (x :: seen)

structure SpatialLayout where
  width : Nat
  height : Nat
  cells : List ((Int × Int) × Option String)
  edge_cells : List (Int × Int) := []
deriving DecidableEq

/-- `_init_cells`: every rectangle coordinate, `y` outer / `x` inner, set
to `None`. -/
def initCells (w h : Nat) : List ((Int × Int) × Option String) :=
  (List.range h).flatMap fun y =>
    (List.range w).map fun x => (((x : Int), (y : Int)), none)

def SpatialLayout.empty (w h : Nat) : SpatialLayout :=
  ⟨w, h, initCells w h, []⟩

/-- `SpatialLayout.is_edge`: a present cell is an edge cell when a
4-neighbour key is missing (outside the rectangle or cut by the mask), or
when it lies on the rectangle border. -/
def SpatialLayout.is_edge (l : SpatialLayout) (c : Int × Int) : Bool :=
  match assocFind l.cells c with
  | none => false
  | some _ =>
    let x := c.1
    let y := c.2
    let nbs := [(x - 1, y), (x + 1, y), (x, y - 1), (x, y + 1)]
    if nbs.any fun nb => (assocFind l.cells nb).isNone then true
    else
      decide (x = 0) || decide (x = (l.width : Int) - 1) ||
      decide (y = 0) || decide (y = (l.height : Int) - 1)

/-- `SpatialLayout.neighbors`: the in-rectangle 4-neighbours (mask-cut
cells are NOT excluded here; the callers use `cells.get`). -/
def SpatialLayout.nbrs (l : SpatialLayout) (c : Int × Int) : List (Int × Int) :=
  let x := c.1
  let y := c.2
  [(x - 1, y), (x + 1, y), (x, y - 1), (x, y + 1)].filter fun p =>
    decide (0 ≤ p.1) && decide (p.1 < (l.width : Int)) &&
    decide (0 ≤ p.2) && decide (p.2 < (l.height : Int))

/-- Deletion loop of `_apply_organic_mask`: one noise draw per rectangle
cell, cut when normalised squared distance from the centre plus the noise
exceeds 0.90. -/
def maskLoop (w h : Nat) : List (Int × Int) → List Q →
    List ((Int × Int) × Option String) → List ((Int × Int) × Option String)
  | [], _, cells => cells
  | c :: crest, noise, cells =>
    let nval := noise.headD ⟨0, 1⟩
    let cx : Q := Q.divP (Q.ofNat w) (Q.ofNat 2)
    let cy : Q := Q.divP (Q.ofNat h) (Q.ofNat 2)
    let dx := Q.divP (Q.sub (Q.ofInt c.1) cx) cx
    let dy := Q.divP (Q.sub (Q.ofInt c.2) cy) cy
    let dist_sq := Q.add (Q.mul dx dx) (Q.mul dy dy)
    let cells' :=
      if Q.blt ⟨9, 10⟩ (Q.add dist_sq nval) then assocDel cells c else cells
    maskLoop w h crest (noise.tail) cells'

/-- `_apply_organic_mask`: skipped entirely for grids with a side ≤ 4. -/
def apply_organic_mask (l : SpatialLayout) (noise : List Q) : SpatialLayout :=
  if l.width ≤ 4 ∨ l.height ≤ 4 then l
  else
    let coords := (List.range l.height).flatMap fun y =>
      (List.range l.width).map fun x => ((x : Int), (y : Int))
    { l with cells := maskLoop l.width l.height coords noise l.cells }

/-- A constraint entry of `self.constraints`: either the closure
`_build_constraints` derives from a biome template, or the `lambda: True`
stub `generate_layout` installs for an unknown fallback biome. -/
inductive BConstraint where
  | fromTemplate (tags forbidden : List String)
  | always
deriving DecidableEq

/-- The closure built by `_build_constraints`: edge_only / no_edge tag
check, then reject when any neighbouring occupied cell holds a biome in
this biome's `forbidden_neighbors`. -/
def runBConstraint : BConstraint → (Int × Int) → SpatialLayout → Bool
  | BConstraint.fromTemplate tags forbidden, coord, layout =>
    let ie := layout.is_edge coord
    if decide ("edge_only" ∈ tags) && !ie then false
    else if decide ("no_edge" ∈ tags) && ie then false
    else
      (layout.nbrs coord).all fun nb =>
        match assocFind layout.cells nb with
        | some (some nid) => decide (nid ∉ forbidden)
        | _ => true
  | BConstraint.always, _, _ => true

/-- `_build_constraints`: one constraint per registered biome template. -/
def build_constraints (templates : List (String × BiomeTemplate)) :
    List (String × BConstraint) :=
  templates.map fun p =>
    (p.1, BConstraint.fromTemplate p.2.tags p.2.forbidden_neighbors)

/-- `_can_place_biome`: the per-biome constraint (when one is registered),
then the `coastal` adjacency rule. -/
def can_place_biome (templates : List (String × BiomeTemplate))
    (constraints : List (String × BConstraint)) (bid : String)
    (coord : Int × Int) (layout : SpatialLayout) : Bool :=
  let cOk :=
    match assocFind constraints bid with
    | some c => runBConstraint c coord layout
    | none => true
  if !cOk then false
  else
    match assocFind templates bid with
    | some tmpl =>
      if "coastal" ∈ tmpl.tags then
        (layout.nbrs coord).all fun nb =>
          if layout.is_edge nb then
            match assocFind layout.cells nb with
            | some (some nbid) =>
              match assocFind templates nbid with
              | some nbt => decide ("coastal" ∈ nbt.tags)
              | none => true
            | _ => true
          else true
      else true
    | none => true

/-- Step 1 of `generate_layout` (guaranteed placement): for each distinct
pool biome, the first free ordered coordinate passing `_can_place_biome`,
else the first free coordinate unconditionally gets the fallback biome. -/
def guaranteedLoop (templates : List (String × BiomeTemplate))
    (constraints : List (String × BConstraint)) (fallback : String)
    (cells_to_fill : Nat) (order : List (Int × Int)) :
    List String → SpatialLayout → Nat → SpatialLayout × Nat
  | [], layout, placed => (layout, placed)
  | bid :: rest, layout, placed =>
    if cells_to_fill ≤ placed then (layout, placed)
    else
      let spot := order.find? fun c =>
        decide (assocFind layout.cells c = some none) &&
        can_place_biome templates constraints bid c layout
      match spot with
      | some c =>
        guaranteedLoop templates constraints fallback cells_to_fill order rest
          { layout with cells := assocSet layout.cells c (some bid) } (placed + 1)
      | none =>
        match order.find? fun c => decide (assocFind layout.cells c = some none) with
        | some c =>
          guaranteedLoop templates constraints fallback cells_to_fill order rest
            { layout with cells := assocSet layout.cells c (some fallback) } (placed + 1)
        | none =>
          guaranteedLoop templates constraints fallback cells_to_fill order rest
            layout placed

/-- Step 2 of `generate_layout` (fill): each remaining free coordinate gets
the first biome of a freshly shuffled pool that passes the check, else the
fallback biome — unconditionally occupied either way. -/
def fillLoop (templates : List (String × BiomeTemplate))
    (constraints : List (String × BConstraint)) (fallback : String)
    (unique_biomes : List String) (cells_to_fill : Nat) :
    List (Int × Int) → List (List Nat) → SpatialLayout → Nat → SpatialLayout
  | [], _, layout, _ => layout
  | c :: crest, perms, layout, placed =>
    if cells_to_fill ≤ placed then layout
    else
      let candidates := shuffleWith (perms.headD []) unique_biomes
      let chosen :=
        (candidates.find? fun bid =>
          can_place_biome templates constraints bid c layout).getD fallback
      fillLoop templates constraints fallback unique_biomes cells_to_fill
        crest perms.tail
        { layout with cells := assocSet layout.cells c (some chosen) } (placed + 1)

/-- The random streams of one `generate_layout` run: mask noise plus one
index-seed list per `random.shuffle` (consumed in call order: pool,
edge coords, inner coords, then one per fill cell). -/
structure LRng where
  noise : List Q := []
  perms : List (List Nat) := []
deriving DecidableEq

/-- `SpatialLayoutGenerator.generate_layout` (fill_frac is the source's
`fill_ratio` argument, default 1.0; `int(total_cells * fill_ratio)`
truncates). -/
def generate_layout (templates : List (String × BiomeTemplate)) (w h : Nat)
    (biome_pool : List String) (fill_frac : Q) (fallback_biome_id : String)
    (rng : LRng) : SpatialLayout :=
  let layout0 := SpatialLayout.empty w h
  let layout1 := apply_organic_mask layout0 rng.noise
  let available := layout1.cells.map Prod.fst
  let total := available.length
  let cells_to_fill := Q.truncNat (Q.mul (Q.ofNat total) fill_frac)
  let constraints0 := build_constraints templates
  let constraints :=
    if (assocFind constraints0 fallback_biome_id).isNone then
      constraints0 ++ [(fallback_biome_id, BConstraint.always)]
    else constraints0
  let unique_biomes := shuffleWith (rng.perms.headD []) (dedupFirst biome_pool)
  let edge_set := available.filter fun c => layout1.is_edge c
  let layout2 := { layout1 with edge_cells := edge_set }
  let edge_coords := shuffleWith ((rng.perms.get? 1).getD []) edge_set
  let inner_coords := shuffleWith ((rng.perms.get? 2).getD [])
    (available.filter fun c => decide (c ∉ edge_set))
  let all_coords_ordered := edge_coords ++ inner_coords
  let g1 := guaranteedLoop templates constraints fallback_biome_id
    cells_to_fill all_coords_ordered unique_biomes layout2 0
  let remaining := all_coords_ordered.filter fun c =>
    decide (assocFind g1.1.cells c = some none)
  fillLoop templates constraints fallback_biome_id unique_biomes
    cells_to_fill remaining (rng.perms.drop 3) g1.1 g1.2

/-- The claimed layout property: every occupied cell's biome tolerates
every occupied 4-neighbour (no neighbour's id lies in its
`forbidden_neighbors`). -/
def layout_respects_forbidden (templates : List (String × BiomeTemplate))
    (l : SpatialLayout) : Bool :=
  l.cells.all fun p =>
    match p.2 with
    | none => true
    | some bid =>
      match assocFind templates bid with
      | none => true
      | some tmpl =>
        (l.nbrs p.1).all fun nb =>
          match assocFind l.cells nb with
          | some (some nbid) => decide (nbid ∉ tmpl.forbidden_neighbors)
          | _ => true

/-! ## Concrete instances -/

/-- A Faction entity used where a typed endpoint is needed. -/
def exFaction : Entity :=
  { id := "fac_1", definition_id := "fac_bandits", type := EntityType.FACTION,
    name := "Bandits" }

/-- A Location entity. -/
def exLocation : Entity :=
  { id := "loc_1", definition_id := "loc_hamlet", type := EntityType.LOCATION,
    name := "Hamlet" }

/-- The `located_in` relation type (Resource → Location), as registered by
`register_all_relation_types`. -/
def exLocatedIn : RelationType :=
  { id := "located_in", from_type := EntityType.RESOURCE,
    to_type := EntityType.LOCATION, description := "Находится в" }

/-- A culture vector whose taboo and revered sets overlap. -/
def cvOverlap : CultureVector := ⟨0, 0, 0, {"gold"}, {"gold"}⟩

/-- A culture vector with disjoint taboo/revered sets. -/
def cvDisjoint : CultureVector := ⟨3, -5, 20, {"technology"}, {"ancestors"}⟩

/-- In-bounds culture vectors whose aggression axes sum beyond the bound. -/
def cvHigh : CultureVector := ⟨15, 0, 0, ∅, ∅⟩

def cvA : CultureVector := ⟨5, -3, 2, {"x"}, ∅⟩

def cvB : CultureVector := ⟨10, 1, -2, ∅, {"y"}⟩

/-- Round-trip example world: two entities on the heap, the table pointing
at them, and one relation whose endpoints are those same records. -/
def c2eA : Entity :=
  { id := "a", definition_id := "res_wood", type := EntityType.RESOURCE,
    name := "Wood" }

def c2eB : Entity :=
  { id := "b", definition_id := "loc_hamlet", type := EntityType.LOCATION,
    name := "Hamlet" }

def c2World : PyWorld :=
  { heap := [(0, c2eA), (1, c2eB)], table := [("a", 0), ("b", 1)],
    relations := [(0, 1, exLocatedIn)] }

/-- An `evolve` that raises during epoch 2 and succeeds elsewhere. -/
def c3Step : Nat → Except String (List String) := fun n =>
  if n = 2 then Except.error "boom" else Except.ok ["evt" ++ toString n]

/-- Biome archetype that forbids `biome_b` as a neighbour. -/
def c4TmplA : BiomeTemplate :=
  { id := "biome_a", name := "A", capacity := 5,
    forbidden_neighbors := ["biome_b"] }

/-- Biome archetype with no constraints of its own. -/
def c4TmplB : BiomeTemplate := { id := "biome_b", name := "B", capacity := 5 }

/-- Layout registry: biome A forbids biome B as a neighbour, B forbids
nothing; neither is coastal or edge-constrained. -/
def c4Templates : List (String × BiomeTemplate) :=
  [("biome_a", c4TmplA), ("biome_b", c4TmplB)]

/-- A 2×2 run (no organic mask at this size) with identity shuffles. -/
def c4Layout : SpatialLayout :=
  generate_layout c4Templates 2 2 ["biome_a", "biome_b"] (Q.ofNat 1)
    "biome_plains" {}

/-- A 2×2 board whose cell (1,0) holds a biome `biome_a` tolerates, for
exercising the placement check. -/
def c4BoardW : SpatialLayout :=
  { width := 2, height := 2,
    cells := assocSet (initCells 2 2) (1, 0) (some "biome_b_friendly"),
    edge_cells := [] }

/-- The conflict-resolution test world: one location, two live co-located
factions, and a conflict between them that is already `resolved`. -/
def c5Loc : Entity :=
  { id := "L1", definition_id := "loc_hamlet", type := EntityType.LOCATION,
    name := "Hamlet", data := some { limits := some [("Faction", 2)] } }

def c5F1 : Entity :=
  { id := "F1", definition_id := "fac_a", type := EntityType.FACTION,
    name := "Alpha", parent_id := some "L1", data := some {} }

def c5F2 : Entity :=
  { id := "F2", definition_id := "fac_b", type := EntityType.FACTION,
    name := "Beta", parent_id := some "L1", data := some {} }

def c5Conflict : Entity :=
  { id := "C1", definition_id := "conflict_ideological",
    type := EntityType.CONFLICT, name := "Конфликт: Alpha vs Beta",
    data := some { status := some "resolved", outcome := some "truce",
                   participants := some ["F1", "F2"],
                   location_id := some "L1", reason_id := some "ideological" } }

def c5Graph : GraphState :=
  registerNarrativeRelationTypes
    { entities := [("L1", c5Loc), ("F1", c5F1), ("F2", c5F2), ("C1", c5Conflict)] }

def c5State : SimState := ⟨c5Graph, {}⟩

def c5Ctx : Ctx := { naming := fun _ _ => "Novi" }

/-- Expansion test world: biome B1 with locations L1 and L2; the expanding
faction F1 lives in L1; L2 already holds G1 and its template caps factions
at 1, so L2 has no spare capacity. -/
def c6TmplHamlet : LocationTemplate :=
  { id := "loc_hamlet", name := "Hamlet", capacity := 4,
    limits := [("Faction", 1)] }

def c6Ctx : Ctx :=
  { locReg := [("loc_hamlet", c6TmplHamlet)], naming := fun _ _ => "Novi" }

def c6B1 : Entity :=
  { id := "B1", definition_id := "biome_plains", type := EntityType.BIOME,
    name := "Plains" }

def c6L1 : Entity :=
  { id := "L1", definition_id := "loc_hamlet", type := EntityType.LOCATION,
    name := "West Hamlet", parent_id := some "B1",
    data := some { limits := some [("Faction", 1)] } }

def c6L2 : Entity :=
  { id := "L2", definition_id := "loc_hamlet", type := EntityType.LOCATION,
    name := "East Hamlet", parent_id := some "B1",
    data := some { limits := some [("Faction", 1)] } }

def c6F1 : Entity :=
  { id := "F1", definition_id := "fac_a", type := EntityType.FACTION,
    name := "Alpha", parent_id := some "L1",
    data := some { role := some "bandits" } }

def c6G1 : Entity :=
  { id := "G1", definition_id := "fac_b", type := EntityType.FACTION,
    name := "Gamma", parent_id := some "L2", data := some {} }

def c6Graph : GraphState :=
  registerNarrativeRelationTypes
    { entities := [("B1", c6B1), ("L1", c6L1), ("L2", c6L2),
                   ("F1", c6F1), ("G1", c6G1)] }

/-- F1's roll passes the 10% expansion gate, G1's fails; the single
`random.choice` picks index 0. -/
def c6State : SimState := ⟨c6Graph, { floats := [⟨0, 1⟩, ⟨1, 1⟩], nats := [0] }⟩

/-- Transformation test: rule A reclaims `ruins` toward `loc_wild_ruins`,
rule B then transforms on the `dangerous` tag; both always fire. -/
def c7RuleA : TransformationRule :=
  { id := "rule_reclaim", requires_tag := "ruins",
    target_def := "loc_wild_ruins", chance := ⟨1, 1⟩,
    verb := "заросла", narrative := "Природа взяла своё" }

def c7RuleB : TransformationRule :=
  { id := "rule_rebuild", requires_tag := "dangerous",
    target_def := "loc_hamlet", chance := ⟨1, 1⟩,
    verb := "отстроена", narrative := "Отстроена заново" }

def c7Ctx : Ctx :=
  { locReg := [("loc_hamlet", c6TmplHamlet)],
    transReg := [c7RuleA, c7RuleB], naming := fun _ _ => "Novi" }

def c7Loc : Entity :=
  { id := "L1", definition_id := "loc_ruins", type := EntityType.LOCATION,
    name := "Old Keep", tags := ["ruins", "dangerous"] }

def c7Graph : GraphState :=
  registerNarrativeRelationTypes { entities := [("L1", c7Loc)] }

def c7State : SimState := ⟨c7Graph, { floats := [⟨0, 1⟩, ⟨0, 1⟩] }⟩

/-- Per-event location ids of a transformation run. -/
def c7EventLocs : List (Option String) :=
  match (process_transformations c7Ctx 4).run c7State with
  | Except.ok (evs, _) => evs.map fun e => (e.data.getD {}).location_id
  | Except.error _ => []

/-- State for the unknown-relation-type write. -/
def c9State : SimState :=
  ⟨{ entities := [("fac_1", exFaction), ("loc_1", exLocation)] }, {}⟩

/-- `parent_id` of the branch faction created by the expansion run, when
the run succeeds. -/
def c6BranchParent : Option (Option String) :=
  match (process_expansions c6Ctx 3 ⟨1, 10⟩).run c6State with
  | Except.ok (_, s2) => (s2.g.lookupE "faction_0").map Entity.parent_id
  | Except.error _ => none

/-! ## Theorems -/

/-- Claim C1: the spec requires a `RelationInstance` whose endpoint types
do not match the relation type's declared `from_type`/`to_type` to be
rejected at construction.  The code means to enforce this — its
`validate_entity_types` validator raises on mismatch — but pydantic
validates `from_entity`/`to_entity` before `relation_type` is in
`info.data`, so the validator's `if not relation_type: return v` guard
always fires and the check is dead: a Faction endpoint passed where the
`located_in` type demands a Resource constructs successfully (the third
conjunct shows the validator body itself would have rejected it had it
seen the relation type — the slip, not the intent). -/
theorem C1_mismatched_relation_accepted :
    RelationInstance.construct exFaction exLocation exLocatedIn =
      Except.ok ⟨exFaction, exLocation, exLocatedIn⟩ ∧
    exFaction.type ≠ exLocatedIn.from_type ∧
    isOkE (RelationInstance.constructChecked exFaction exLocation exLocatedIn) = false := by
  exact ⟨rfl, by decide, rfl⟩

/-- Claim C8, counterexample: `distance_to(v, v)` is not `0` for every
culture vector — when a value is simultaneously taboo and revered the two
cross-intersection penalties (`+1.5` each) outweigh the shared-revered
discount (`-0.5`), giving `5/2` for a self-distance. -/
theorem C8_distance_self_not_zero :
    cvOverlap.distance_to cvOverlap [] = 5 / 2 ∧ ((5 : Rat) / 2) ≠ 0 := by
  constructor
  · norm_num [CultureVector.distance_to, axisTerm, wGet, pymax, cvOverlap]
  · norm_num

/-- Claim C8, amended: `distance_to(v, v) = 0` for every culture vector
whose taboo and revered sets are disjoint (every axis difference is 0, the
cross intersections are empty, and the shared-revered discount is floored
away by `max(0.0, ·)`), for every weight table. -/
theorem C8_distance_self_zero (v : CultureVector)
    (weights : List (String × Rat)) (hdisj : v.taboo ∩ v.revered = ∅) :
    v.distance_to v weights = 0 := by
  have hax : ∀ (x : Int) (w : Rat), axisTerm x x w = 0 := by
    intro x w
    simp [axisTerm]
  unfold CultureVector.distance_to pymax
  rw [hax, hax, hax, hdisj, Finset.inter_self]
  rw [if_neg]
  push_neg
  simp only [Finset.card_empty, Nat.add_zero, Nat.cast_zero, zero_mul]
  have h0 : (0 : Rat) ≤ (v.revered.card : Rat) * (1 / 2) := by positivity
  linarith

/-- Witness for C8_distance_self_zero at a concrete vector and weight
table. -/
theorem C8_distance_self_zero_witness :
    cvDisjoint.taboo ∩ cvDisjoint.revered = ∅ ∧
    cvDisjoint.distance_to cvDisjoint [("aggression", 1)] = 0 :=
  ⟨by decide, C8_distance_self_zero cvDisjoint [("aggression", 1)] (by decide)⟩

/-- Claim C9: a write through the query gateway's `add_relation` with an
unregistered relation-type id is a logged no-op — it does not raise and
returns the state (entity table, relation list, everything) unchanged. -/
theorem C9_add_relation_unknown_type_noop (s : SimState) (f t : Entity)
    (rtid : String) (h : alookup s.g.relation_types rtid = none) :
    (qs_add_relation (some f) (some t) rtid).run s = Except.ok ((), s) := by
  simp [qs_add_relation, StateT.run, bind, StateT.bind, get, getThe,
        MonadStateOf.get, StateT.get, pure, StateT.pure, Except.bind,
        Except.pure, h]

/-- Witness for C9 at a concrete world with an empty relation-type
registry. -/
theorem C9_add_relation_unknown_type_noop_witness :
    alookup c9State.g.relation_types "believes_in" = none ∧
    (qs_add_relation (some exFaction) (some exLocation) "believes_in").run c9State =
      Except.ok ((), c9State) :=
  ⟨rfl, C9_add_relation_unknown_type_noop c9State exFaction exLocation
    "believes_in" rfl⟩

/-- Claim C10: `CultureVector.__add__` is partial even on in-bounds inputs
— the sum re-runs the pydantic `ge=-20, le=20` axis validation, so two
in-bounds vectors whose aggression axes sum to 30 fail to add — and on
inputs whose axis sums stay in bounds it returns exactly the component-wise
sums with the set unions. -/
theorem C10_add_partial_on_in_bounds :
    (∃ v w : CultureVector, v.inBounds ∧ w.inBounds ∧ isOkE (v.add w) = false) ∧
    (∀ v w : CultureVector,
      -20 ≤ v.aggression + w.aggression → v.aggression + w.aggression ≤ 20 →
      -20 ≤ v.magic_affinity + w.magic_affinity →
      v.magic_affinity + w.magic_affinity ≤ 20 →
      -20 ≤ v.collectivism + w.collectivism → v.collectivism + w.collectivism ≤ 20 →
      v.add w = Except.ok ⟨v.aggression + w.aggression,
        v.magic_affinity + w.magic_affinity, v.collectivism + w.collectivism,
        v.taboo ∪ w.taboo, v.revered ∪ w.revered⟩) := by
  constructor
  · exact ⟨cvHigh, cvHigh, by decide, by decide, by decide⟩
  · intro v w h1 h2 h3 h4 h5 h6
    simp only [CultureVector.add, mkCultureVector]
    rw [if_neg (by omega), if_neg (by omega), if_neg (by omega)]

/-- Witness for the universally quantified half of C10 at concrete
in-bounds vectors. -/
theorem C10_add_partial_on_in_bounds_witness :
    cvA.add cvB = Except.ok ⟨cvA.aggression + cvB.aggression,
      cvA.magic_affinity + cvB.magic_affinity,
      cvA.collectivism + cvB.collectivism,
      cvA.taboo ∪ cvB.taboo, cvA.revered ∪ cvB.revered⟩ :=
  C10_add_partial_on_in_bounds.2 cvA cvB (by decide) (by decide) (by decide)
    (by decide) (by decide) (by decide)

/-- Claim C3, counterexample: with an error escaping epoch 2 of a 3-epoch
run, the engine writes exactly one `CRITICAL_ERROR` record but does NOT
continue — epoch 3 is never executed (the `try` wraps the whole `for`
loop, so the `except` branch ends the run). -/
theorem C3_error_stops_remaining_epochs :
    countCritical (run_simulation c3Step 3).1 = 1 ∧
    (run_simulation c3Step 3).2 = [1, 2] ∧
    3 ∉ (run_simulation c3Step 3).2 := by decide

theorem countCritical_map_event (l : List String) :
    countCritical (l.map HistLine.event) = 0 := by
  induction l with
  | nil => rfl
  | cons h t ih =>
    rw [List.map_cons]
    simp only [countCritical, List.filter_cons]
    exact ih

theorem countCritical_append (a b : List HistLine) :
    countCritical (a ++ b) = countCritical a + countCritical b := by
  simp [countCritical, List.filter_append]

theorem runEpochsFrom_error (step : Nat → Except String (List String)) :
    ∀ (n age k : Nat) (msg : String), age ≤ k → k < age + n →
    step k = Except.error msg →
    (∀ j, age ≤ j → j < k → isOkE (step j) = true) →
    (runEpochsFrom step age n).2 = List.range' age (k + 1 - age) ∧
    countCritical (runEpochsFrom step age n).1 = 1 := by
  intro n
  induction n with
  | zero =>
    intro age k msg h1 h2 _ _
    omega
  | succ n ih =>
    intro age k msg h1 h2 herr hok
    by_cases hak : age = k
    · subst hak
      have hk1 : age + 1 - age = 1 := by omega
      simp [runEpochsFrom, herr, hk1, List.range', countCritical, List.filter]
    · have hlt : age < k := by omega
      have hok0 : isOkE (step age) = true := hok age (le_refl _) hlt
      cases hstep : step age with
      | error e =>
        rw [hstep] at hok0
        simp [isOkE] at hok0
      | ok evs =>
        have ihr := ih (age + 1) k msg (by omega) (by omega) herr
          (fun j hj1 hj2 => hok j (by omega) hj2)
        constructor
        · have h3 : k + 1 - age = (k + 1 - (age + 1)) + 1 := by omega
          simp only [runEpochsFrom, hstep]
          rw [h3, List.range'_succ, ← ihr.1]
        · simp only [runEpochsFrom, hstep]
          rw [countCritical_append, countCritical_map_event, ihr.2]

/-- Claim C3, amended: when an error escapes epoch `k` of a run driven to
`target` epochs (every earlier epoch succeeding), the engine emits exactly
one synthetic `CRITICAL_ERROR` record and stops: precisely the epochs
`1..k` are executed, the remaining `target - k` epochs are abandoned. -/
theorem C3_one_critical_error_then_stop
    (step : Nat → Except String (List String)) (target k : Nat) (msg : String)
    (h1 : 1 ≤ k) (h2 : k ≤ target) (herr : step k = Except.error msg)
    (hok : ∀ j, 1 ≤ j → j < k → isOkE (step j) = true) :
    (run_simulation step target).2 = List.range' 1 k ∧
    countCritical (run_simulation step target).1 = 1 := by
  have h := runEpochsFrom_error step target 1 k msg h1 (by omega) herr hok
  have hk : k + 1 - 1 = k := by omega
  rw [hk] at h
  exact h

/-- Witness for C3_one_critical_error_then_stop at the concrete failing
run. -/
theorem C3_one_critical_error_then_stop_witness :
    (run_simulation c3Step 3).2 = List.range' 1 2 ∧
    countCritical (run_simulation c3Step 3).1 = 1 :=
  C3_one_critical_error_then_stop c3Step 3 2 "boom" (by decide) (by decide)
    (by decide) (fun j hj1 hj2 => by interval_cases j; decide)

/-- Claim C2, counterexample: in the original world the single relation's
endpoints ARE the table records (addresses 0 and 1); after
`save_world_to_json`/`load_world_from_json` the relation's endpoints live
at fresh addresses 2 and 3 — value-equal copies of the reloaded table
records at addresses 0 and 1, but not the same records. -/
theorem C2_roundtrip_endpoints_are_copies :
    c2World.table = [("a", 0), ("b", 1)] ∧
    c2World.relations = [(0, 1, exLocatedIn)] ∧
    c2World.table.length = 2 ∧ c2World.relations.length = 1 ∧
    (roundTrip c2World).table = [("a", 0), ("b", 1)] ∧
    (roundTrip c2World).relations = [(2, 3, exLocatedIn)] ∧
    heapGet (roundTrip c2World).heap 2 = some c2eA ∧
    heapGet (roundTrip c2World).heap 0 = some c2eA ∧
    heapGet (roundTrip c2World).heap 3 = some c2eB ∧
    heapGet (roundTrip c2World).heap 1 = some c2eB ∧
    (2 : Nat) ≠ 0 ∧ (3 : Nat) ≠ 1 := by decide

theorem allocTable_mem_bound (l : List (String × Entity)) :
    ∀ (i : Nat) (p : String × Nat), p ∈ (allocTable i l).2 →
      i ≤ p.2 ∧ p.2 < i + l.length := by
  induction l with
  | nil => intro i p hp; simp [allocTable] at hp
  | cons hd tl ih =>
    intro i p hp
    rw [show allocTable i (hd :: tl) =
      ((i, hd.2) :: (allocTable (i + 1) tl).1,
       (hd.1, i) :: (allocTable (i + 1) tl).2) from rfl] at hp
    rcases List.mem_cons.1 hp with h | h
    · subst h
      exact ⟨le_refl _, by simp only [List.length_cons]; omega⟩
    · have := ih (i + 1) p h
      simp only [List.length_cons]
      omega

theorem allocRels_mem_ge (l : List (Entity × Entity × RelationType)) :
    ∀ (i : Nat) (r : Nat × Nat × RelationType), r ∈ (allocRels i l).2 →
      i ≤ r.1 ∧ i ≤ r.2.1 := by
  induction l with
  | nil => intro i r hr; simp [allocRels] at hr
  | cons hd tl ih =>
    intro i r hr
    rw [show allocRels i (hd :: tl) =
      ((i, hd.1) :: (i + 1, hd.2.1) :: (allocRels (i + 2) tl).1,
       (i, i + 1, hd.2.2) :: (allocRels (i + 2) tl).2) from rfl] at hr
    rcases List.mem_cons.1 hr with h | h
    · subst h
      simp
    · have := ih (i + 2) r h
      omega

/-- Claim C2, amended: round-tripping preserves the structure but not the
sharing — after `load_world_from_json`, every relation endpoint is a
freshly allocated record whose address differs from every address in the
reloaded entity table (i.e. the endpoints are structurally-equal copies,
never the same in-memory records as the table entries). -/
theorem C2_reloaded_endpoints_not_table_records (d : WorldDump)
    (r : Nat × Nat × RelationType) (hr : r ∈ (load_world_from_json d).relations)
    (p : String × Nat) (hp : p ∈ (load_world_from_json d).table) :
    r.1 ≠ p.2 ∧ r.2.1 ≠ p.2 := by
  have hr' : r ∈ (allocRels d.entities.length d.relations).2 := by
    simpa [load_world_from_json, loadWorld] using hr
  have hp' : p ∈ (allocTable 0 d.entities).2 := by
    simpa [load_world_from_json, loadWorld] using hp
  have h1 := allocRels_mem_ge d.relations d.entities.length r hr'
  have h2 := allocTable_mem_bound d.entities 0 p hp'
  omega

/-- Witness for C2_reloaded_endpoints_not_table_records on the round trip
of the concrete world. -/
theorem C2_reloaded_endpoints_not_table_records_witness :
    (2, 3, exLocatedIn) ∈ (load_world_from_json (dumpWorld c2World)).relations ∧
    ("a", 0) ∈ (load_world_from_json (dumpWorld c2World)).table ∧
    ((2 : Nat) ≠ 0 ∧ (3 : Nat) ≠ 0) :=
  ⟨by decide, by decide,
   C2_reloaded_endpoints_not_table_records (dumpWorld c2World)
     (2, 3, exLocatedIn) (by decide) ("a", 0) (by decide)⟩

/-- Claim C4, counterexample: a generated layout CAN hold a cell whose
occupied neighbour is forbidden for it.  On a 2×2 grid with pool
`[biome_a, biome_b]` where `biome_a` forbids `biome_b`, guaranteed
placement puts `biome_a` at (0,0) and then `biome_b` at (1,0): the check
run for `biome_b` consults only `biome_b`'s own (empty) forbidden set, so
the already-placed `biome_a` cell ends up with a forbidden neighbour. -/
theorem C4_layout_can_violate_forbidden :
    layout_respects_forbidden c4Templates c4Layout = false ∧
    assocFind c4Layout.cells (0, 0) = some (some "biome_a") ∧
    assocFind c4Layout.cells (1, 0) = some (some "biome_b") ∧
    (1, 0) ∈ c4Layout.nbrs (0, 0) ∧
    "biome_b" ∈ c4TmplA.forbidden_neighbors ∧
    assocFind c4Templates "biome_a" = some c4TmplA := by decide

theorem assocFind_build_constraints (templates : List (String × BiomeTemplate))
    (k : String) :
    assocFind (build_constraints templates) k =
      (assocFind templates k).map fun t =>
        BConstraint.fromTemplate t.tags t.forbidden_neighbors := by
  induction templates with
  | nil => rfl
  | cons hd tl ih =>
    by_cases h : hd.1 = k
    · simp [build_constraints, assocFind, h]
    · simp only [build_constraints, List.map_cons] at ih ⊢
      simp [assocFind, h, ih]

/-- Claim C4, amended: the constraint check enforced at placement time is
local and one-sided — whenever `_can_place_biome` admits biome `bid` at a
coordinate, no 4-neighbour occupied AT THAT MOMENT holds a biome in `bid`'s
own `forbidden_neighbors`.  (The final layout can still violate the
property, as the counterexample shows, because a later placement consults
only its own forbidden set and the fallback path skips the check
entirely.) -/
theorem C4_placement_check_blocks_forbidden
    (templates : List (String × BiomeTemplate)) (bid : String)
    (tmpl : BiomeTemplate) (coord : Int × Int) (layout : SpatialLayout)
    (htmpl : assocFind templates bid = some tmpl)
    (hcan : can_place_biome templates (build_constraints templates) bid coord
      layout = true) :
    ∀ nb ∈ layout.nbrs coord, ∀ nbid : String,
      assocFind layout.cells nb = some (some nbid) →
        nbid ∉ tmpl.forbidden_neighbors := by
  intro nb hnb nbid hcell
  have hc : assocFind (build_constraints templates) bid =
      some (BConstraint.fromTemplate tmpl.tags tmpl.forbidden_neighbors) := by
    rw [assocFind_build_constraints, htmpl]
    rfl
  have hcok : runBConstraint
      (BConstraint.fromTemplate tmpl.tags tmpl.forbidden_neighbors) coord
      layout = true := by
    by_contra hneg
    rw [Bool.not_eq_true] at hneg
    simp only [can_place_biome, hc, hneg] at hcan
    simp at hcan
  simp only [runBConstraint] at hcok
  split_ifs at hcok
  have hall := List.all_eq_true.1 hcok nb hnb
  rw [hcell] at hall
  exact of_decide_eq_true hall

/-- Witness for C4_placement_check_blocks_forbidden on a board with an
occupied, tolerated neighbour. -/
theorem C4_placement_check_blocks_forbidden_witness :
    can_place_biome c4Templates (build_constraints c4Templates) "biome_a"
      (0, 0) c4BoardW = true ∧
    (1, 0) ∈ c4BoardW.nbrs (0, 0) ∧
    assocFind c4BoardW.cells (1, 0) = some (some "biome_b_friendly") ∧
    "biome_b_friendly" ∉ c4TmplA.forbidden_neighbors :=
  ⟨by decide, by decide, by decide,
   C4_placement_check_blocks_forbidden c4Templates "biome_a" c4TmplA (0, 0)
     c4BoardW (by decide) (by decide) (1, 0) (by decide) "biome_b_friendly"
     (by decide)⟩

set_option maxHeartbeats 4000000 in
/-- Claim C6: the spec says an expansion target is a same-biome location
with spare faction capacity.  The code computes exactly that candidate
list (`valid_targets`) and then — the slip its own fix-comment contradicts
— draws the target from the unchecked `possible_targets`: here F1 founds
its branch in L2 although L2 is at its faction limit (1 resident, limit 1,
`expansionHasRoom` false). -/
theorem C6_expansion_ignores_capacity :
    c6BranchParent = some (some "L2") ∧
    expansionHasRoom c6Ctx c6Graph c6L2 = false ∧
    (c6TmplHamlet.limits.lookup "Faction").getD 2 = 1 ∧
    (get_children c6Graph "L2" (some EntityType.FACTION)).length = 1 := by
  constructor
  · decide
  · exact ⟨by decide, by decide, by decide⟩

set_option maxHeartbeats 4000000 in
/-- Claim C7: the spec says at most one transformation (including the
`loc_wild_ruins` retag) per location per epoch; the code's own `break`
comment says the same, but the retag branch ends in `continue`, so a
subsequent rule can transform the same location again in the same epoch.
Here location L1, tagged `ruins` and `dangerous`, first gets the
nature-reclaim retag and is then fully transformed by the next rule — two
transformation events for one location in one call. -/
theorem C7_two_transformations_one_location :
    c7EventLocs = [some "L1", some "L1"] ∧ c7EventLocs.length = 2 := by
  constructor
  · decide
  · decide

theorem mrun_pure {α : Type} (a : α) (s : SimState) :
    (pure a : M α).run s = Except.ok (a, s) := rfl

theorem mrun_bind {α β : Type} (x : M α) (f : α → M β) (s : SimState) :
    (x >>= f).run s = match x.run s with
      | Except.error e => Except.error e
      | Except.ok p => (f p.1).run p.2 := by
  show Except.bind (x.run s) _ = _
  cases x.run s with
  | error e => rfl
  | ok p => rfl

/-- Every id in the processed trace of the resolution loop comes from the
snapshot list the loop was given. -/
theorem resolveLoop_processed_subset (ctx : Ctx) (age : Int) :
    ∀ (ids : List String) (s : SimState)
      (out : List (String × String) × List Entity) (s2 : SimState),
      (resolveLoop ctx age ids).run s = Except.ok (out, s2) →
      ∀ p ∈ out.1, p.1 ∈ ids := by
  intro ids
  induction ids with
  | nil =>
    intro s out s2 h p hp
    rw [show (resolveLoop ctx age []).run s =
      Except.ok ((([], []) : List (String × String) × List Entity), s) from rfl] at h
    injection h with h'
    injection h' with hval hst
    rw [← hval] at hp
    simp at hp
  | cons cid rest ih =>
    intro s out s2 h p hp
    rw [show resolveLoop ctx age (cid :: rest) =
      (resolveStep ctx age cid >>= fun head =>
        resolveLoop ctx age rest >>= fun r =>
          match head with
          | none => pure r
          | some (oc, none) => pure ((cid, oc) :: r.1, r.2)
          | some (oc, some ev) => pure ((cid, oc) :: r.1, ev :: r.2)) from rfl,
      mrun_bind] at h
    split at h
    · exact Except.noConfusion h
    · next q heq =>
      rw [mrun_bind] at h
      split at h
      · exact Except.noConfusion h
      · next r2 heq2 =>
        have hrest := ih q.2 r2.1 r2.2 (by rw [heq2])
        rcases hq : q.1 with _ | ⟨oc, _ | ev⟩ <;> rw [hq] at h <;>
          rw [mrun_pure] at h <;> injection h with h' <;>
          injection h' with hval hst
        · rw [← hval] at hp
          exact List.mem_cons_of_mem _ (hrest p hp)
        · rw [← hval] at hp
          rcases List.mem_cons.1 hp with hh | hh
          · rw [hh]
            exact List.mem_cons_self _ _
          · exact List.mem_cons_of_mem _ (hrest p hh)
        · rw [← hval] at hp
          rcases List.mem_cons.1 hp with hh | hh
          · rw [hh]
            exact List.mem_cons_self _ _
          · exact List.mem_cons_of_mem _ (hrest p hh)

/-- In a well-keyed entity table (keys are the entities' ids and are
distinct), a table value whose id is `cid` is THE entity `alookup` finds
under `cid`. -/
theorem alookup_unique_value (entities : List (String × Entity)) :
    ∀ (e c : Entity) (cid : String),
      (∀ p ∈ entities, (p.2).id = p.1) → (entities.map Prod.fst).Nodup →
      e ∈ entities.map Prod.snd → e.id = cid → alookup entities cid = some c →
      e = c := by
  induction entities with
  | nil =>
    intro e c cid _ _ hmem _ _
    simp at hmem
  | cons hd tl ih =>
    intro e c cid hkeys hnd hmem hid hl
    simp only [alookup] at hl
    simp only [List.map_cons, List.mem_cons] at hmem
    rw [List.map_cons, List.nodup_cons] at hnd
    by_cases hk : hd.1 = cid
    · rw [if_pos hk] at hl
      injection hl with hc
      rcases hmem with he | he
      · rw [he, hc]
      · exfalso
        rcases List.mem_map.1 he with ⟨pr, hpr, hpe⟩
        have hpk : pr.1 = cid := by
          rw [← hkeys pr (List.mem_cons_of_mem _ hpr), hpe, hid]
        apply hnd.1
        rw [hk, ← hpk]
        exact List.mem_map_of_mem Prod.fst hpr
    · rw [if_neg hk] at hl
      rcases hmem with he | he
      · exfalso
        apply hk
        rw [← hkeys hd (List.mem_cons_self _ _), ← he, hid]
      · exact ih e c cid (fun p hp => hkeys p (List.mem_cons_of_mem _ hp))
          hnd.2 he hid hl

set_option maxHeartbeats 4000000 in
/-- Claim C5, counterexample: a conflict whose status is already
`resolved` (here with two still-valid co-located participants) is filtered
out of `active_conflicts` before resolution: running `resolve_conflicts`
again produces NO outcome for it — not the outcome `aborted` the claim
asserts — and returns the world unchanged. -/
theorem C5_second_resolution_produces_no_outcome :
    c5Graph.lookupE "C1" = some c5Conflict ∧
    (c5Conflict.data.getD {}).status = some "resolved" ∧
    (resolve_conflicts c5Ctx 2).run c5State = Except.ok (([], []), c5State) := by
  refine ⟨by decide, by decide, by decide⟩

/-- Claim C5, amended: resolving a second time is a no-op for an
already-resolved conflict — `resolve_conflicts` never invokes the resolver
on a conflict whose `status` is `"resolved"` (it appears in no processed
outcome, `aborted` or otherwise), in any well-keyed world. -/
theorem C5_resolved_conflict_not_reprocessed
    (s : SimState) (ctx : Ctx) (age : Int) (cid : String) (c : Entity)
    (out : List (String × String) × List Entity) (s2 : SimState)
    (hkeys : ∀ p ∈ s.g.entities, (p.2).id = p.1)
    (hnd : (s.g.entities.map Prod.fst).Nodup)
    (hc : s.g.lookupE cid = some c)
    (hres : (c.data.getD {}).status = some "resolved")
    (hrun : (resolve_conflicts ctx age).run s = Except.ok (out, s2)) :
    ∀ oc : String, (cid, oc) ∉ out.1 := by
  intro oc hmem
  have hrun2 : (resolveLoop ctx age
      ((s.g.entityValues.filter isActiveConflict).map Entity.id)).run s =
      Except.ok (out, s2) := hrun
  have hsub := resolveLoop_processed_subset ctx age _ s out s2 hrun2 (cid, oc) hmem
  rcases List.mem_map.1 hsub with ⟨e, he, heid⟩
  have hef : e ∈ s.g.entityValues := (List.mem_filter.1 he).1
  have hact : isActiveConflict e = true := (List.mem_filter.1 he).2
  have hec : e = c := alookup_unique_value s.g.entities e c cid hkeys hnd hef heid hc
  rw [hec] at hact
  unfold isActiveConflict at hact
  simp only [Bool.and_eq_true, decide_eq_true_eq] at hact
  rw [hres] at hact
  simp at hact

set_option maxHeartbeats 4000000 in
/-- Witness for C5_resolved_conflict_not_reprocessed at the concrete
resolved conflict. -/
theorem C5_resolved_conflict_not_reprocessed_witness :
    (resolve_conflicts c5Ctx 2).run c5State = Except.ok (([], []), c5State) ∧
    ("C1", "aborted") ∉ ([] : List (String × String)) :=
  ⟨by decide,
   C5_resolved_conflict_not_reprocessed c5State c5Ctx 2 "C1" c5Conflict
     ([], []) c5State (by decide) (by decide) (by decide) (by decide)
     (by decide) "aborted"⟩

end WHE
